import Mathlib

/-!
Verification development for the Cosmos DB resource handlers of the
terraform-provider-azurerm fork: a shallow embedding of the CRUD handler
functions (SQL trigger, user-defined function, stored procedure, role
assignment, role definition, SQL database), the capability predicate, and
the flatten and expand adapters, together with theorems settling the
specified properties.

Modelling conventions:
- Go pointers become `Option`; dereferencing a `none` pointer is a runtime
  panic and is modelled by an explicit `panicked` outcome.
- A generated-SDK client call returns a Go `(result, err)` pair; the result
  carries the HTTP response (when one was received) and the decoded model.
  These are modelled as environment records: the handler is a deterministic
  function of the responses the remote side would give.
- `d.Set`, `d.SetId`, lock acquisition and release, and each client call are
  recorded as events in the order the Go code performs them, so that
  ordering, locking and call-suppression properties can be stated.
-/

namespace AzureRM

/-- An `*http.Response` as inspected by `response.WasNotFound`:
`none` when no response was received, otherwise the status code. -/
def HttpResponse : Type := Option Nat

instance : DecidableEq HttpResponse := by
  unfold HttpResponse
  infer_instance

/-- `response.WasNotFound(resp)`: the response exists and its status is 404. -/
def wasNotFound (r : HttpResponse) : Bool :=
  match r with
  | some code => code == 404
  | none => false

/-- Result of a generated-SDK GET style call: whether the returned `err` was
non-nil, the HTTP response, and the decoded model pointer (`none` = nil). -/
structure GetResp (α : Type) where
  errored : Bool
  httpResponse : HttpResponse
  model : Option α
deriving DecidableEq

/-- Result of a long-running mutating call (`future, err := client...`):
the initial `err`, the HTTP response, and the outcome of
`future.Poller.PollUntilDone()` (`true` = the poll returned an error). -/
structure LroResp where
  errored : Bool
  httpResponse : HttpResponse
  pollErrored : Bool
deriving DecidableEq

/-- The configuration-side shape of one element of the `permissions` block:
a map holding a `data_actions` list of interface values. -/
structure PermissionConfig where
  data_actions : List (Option String)
deriving DecidableEq

/-- A value passed to `d.Set` by a handler. -/
inductive SetVal where
  | str (s : String)
  | optStr (o : Option String)
  | strList (l : List (Option String))
  | perms (l : List PermissionConfig)
  | null
deriving DecidableEq

/-- Observable actions of a handler, in program order. -/
inductive Event where
  | lockAcquire (name kind : String)
  | lockRelease (name kind : String)
  | apiGet (id : String)
  | apiMutate (id : String)
  | apiDelete (id : String)
  | apiAccountGet (id : String)
  | apiThroughputGet (id : String)
  | setId (id : String)
  | setField (name : String) (value : SetVal)
deriving DecidableEq

/-- Structured error values returned by the handlers (each constructor
corresponds to one `fmt.Errorf` / helper in the source, carrying the
identifier text interpolated there). -/
inductive HandlerError where
  | wrapped (op id : String)
  | importAsExists (resourceType id : String)
  | genImportId (id : String)
  | parseError
  | plain (msg : String)
deriving DecidableEq

/-- Final outcome of a handler invocation: returned nil, returned an error,
or crashed with a runtime panic (nil-pointer dereference). -/
inductive Outcome where
  | ok
  | err (e : HandlerError)
  | panicked
deriving DecidableEq

/-- A handler run: its Go return value together with the recorded events. -/
structure HandlerResult where
  outcome : Outcome
  events : List Event
deriving DecidableEq

/-- Result of a plain Go function that may panic. -/
inductive GoResult (α : Type) where
  | ok (val : α)
  | panicked
deriving DecidableEq

/-! ## Capability detection (`internal/services/cosmos/common/capabilities.go`) -/

/-- `cosmosdb.Capability`: `Name *string`. -/
structure Capability where
  name : Option String
deriving DecidableEq

/-- `cosmosdb.DatabaseAccountGetProperties` (the fields used here):
`Capabilities *[]Capability`. -/
structure DatabaseAccountGetProperties where
  capabilities : Option (List Capability)
deriving DecidableEq

/-- `cosmosdb.DatabaseAccountGetResults` (the fields used here):
`Id *string`, `Properties *DatabaseAccountGetProperties`. -/
structure DatabaseAccountGetResults where
  id : Option String
  properties : Option DatabaseAccountGetProperties
deriving DecidableEq

/-- `common.IsServerlessCapacityMode`: scans the capability list for an
entry named "EnableServerless"; false when the properties pointer or the
capability-list pointer is nil. -/
def IsServerlessCapacityMode (accResp : DatabaseAccountGetResults) : Bool :=
  match accResp.properties with
  | some props =>
    match props.capabilities with
    | some caps => caps.any (fun v => match v.name with
      | some n => n == "EnableServerless"
      | none => false)
    | none => false
  | none => false

/-! ## String-slice adapters (`utils` package)

Modelled from the spec: the repository's `utils.ExpandStringSlice` and
`utils.FlattenStringSlice` helpers are called by the role-definition
adapters but their file is not part of the extract.  Following the spec's
flatten/expand adapter contract (section 4.3: flatten of an absent field
yields an empty non-nil container; expand tolerates empty input) and the
uniform conventions of the in-source adapters: flatten of a nil `*[]string`
is the empty list, flatten of a present slice lists its strings; expand
maps each non-nil interface element to its string, a nil element to the
empty string, and always returns a (non-nil) pointer to the result. -/

/-- `utils.FlattenStringSlice : *[]string -> []interface` -/
def FlattenStringSlice (input : Option (List String)) : List (Option String) :=
  match input with
  | some l => l.map some
  | none => []

/-- `utils.ExpandStringSlice : []interface -> *[]string` -/
def ExpandStringSlice (input : List (Option String)) : Option (List String) :=
  some (input.map (fun item => match item with
    | some s => s
    | none => ""))

/-! ## Role-definition permissions adapters (`cosmosdb_sql_role_definition_resource.go`) -/

/-- `rbacs.Permission`: `DataActions *[]string`. -/
structure Permission where
  dataActions : Option (List String)
deriving DecidableEq

/-- `expandSqlRoleDefinitionPermissions`: builds a fresh slice and returns a
(non-nil) pointer to it, one `Permission` per configuration element. -/
def expandSqlRoleDefinitionPermissions (input : List PermissionConfig) :
    Option (List Permission) :=
  some (input.map (fun v => { dataActions := ExpandStringSlice v.data_actions }))

/-- `flattenSqlRoleDefinitionPermissions`: empty list when the pointer is
nil, otherwise one configuration element per wire `Permission`. -/
def flattenSqlRoleDefinitionPermissions (input : Option (List Permission)) :
    List PermissionConfig :=
  match input with
  | none => []
  | some l => l.map (fun item => { data_actions := FlattenStringSlice item.dataActions })

/-! ## Restorable-database-accounts flatten functions
(`cosmosdb_restorable_database_accounts_data_source.go`) -/

/-- `restorables.RestorableLocationResource` (the fields used here). -/
structure RestorableLocationResource where
  locationName : Option String
  regionalDatabaseAccountInstanceId : Option String
  creationTime : Option String
  deletionTime : Option String
deriving DecidableEq

/-- Properties of a restorable database account (the fields used here). -/
structure RestorableDatabaseAccountProperties where
  accountName : Option String
  apiType : Option String
  creationTime : Option String
  deletionTime : Option String
  restorableLocations : Option (List RestorableLocationResource)
deriving DecidableEq

/-- `restorables.RestorableDatabaseAccountGetResult` (the fields used here). -/
structure RestorableDatabaseAccountGetResult where
  id : Option String
  properties : Option RestorableDatabaseAccountProperties
deriving DecidableEq

/-- One flattened `restorable_locations` element. -/
structure FlatRestorableLocation where
  creation_time : String
  deletion_time : String
  location : String
  regional_database_account_instance_id : String
deriving DecidableEq

/-- One flattened `accounts` element. -/
structure FlatRestorableAccount where
  id : String
  api_type : String
  creation_time : String
  deletion_time : String
  restorable_locations : List FlatRestorableLocation
deriving DecidableEq

/-- Body of the per-item loop of
`flattenCosmosDbRestorableDatabaseAccountsRestorableLocations`. -/
def flattenOneRestorableLocation (item : RestorableLocationResource) :
    FlatRestorableLocation :=
  { creation_time := item.creationTime.getD ""
    deletion_time := item.deletionTime.getD ""
    location := item.locationName.getD ""
    regional_database_account_instance_id :=
      item.regionalDatabaseAccountInstanceId.getD "" }

/-- `flattenCosmosDbRestorableDatabaseAccountsRestorableLocations`: the
function's first statement evaluates `len(*input)`, dereferencing the slice
pointer; a nil pointer therefore panics before any guard can return. -/
def flattenCosmosDbRestorableDatabaseAccountsRestorableLocations
    (input : Option (List RestorableLocationResource)) :
    GoResult (List FlatRestorableLocation) :=
  match input with
  | none => .panicked
  | some l =>
    if l.length = 0 then .ok []
    else .ok (l.map flattenOneRestorableLocation)

/-- Per-item step of `flattenCosmosDbRestorableDatabaseAccounts`: items
whose properties are nil or whose account name does not match are skipped;
a kept item flattens its fields, recursively flattening the (possibly nil)
restorable-locations pointer, which can panic. -/
def flattenRestorableAccountsLoop (accountName : String)
    (items : List RestorableDatabaseAccountGetResult) :
    GoResult (List FlatRestorableAccount) :=
  match items with
  | [] => .ok []
  | item :: rest =>
    match item.properties with
    | some props =>
      if props.accountName == some accountName then
        match flattenCosmosDbRestorableDatabaseAccountsRestorableLocations
            props.restorableLocations with
        | .panicked => .panicked
        | .ok locs =>
          match flattenRestorableAccountsLoop accountName rest with
          | .panicked => .panicked
          | .ok tail =>
            .ok ({ id := item.id.getD ""
                   api_type := props.apiType.getD ""
                   creation_time := props.creationTime.getD ""
                   deletion_time := props.deletionTime.getD ""
                   restorable_locations := locs } :: tail)
      else flattenRestorableAccountsLoop accountName rest
    | none => flattenRestorableAccountsLoop accountName rest

/-- `flattenCosmosDbRestorableDatabaseAccounts`: like the locations
flatten, its guard `len(*input) == 0` dereferences the slice pointer, so a
nil pointer panics. -/
def flattenCosmosDbRestorableDatabaseAccounts
    (input : Option (List RestorableDatabaseAccountGetResult))
    (accountName : String) : GoResult (List FlatRestorableAccount) :=
  match input with
  | none => .panicked
  | some l =>
    if l.length = 0 then .ok []
    else flattenRestorableAccountsLoop accountName l

/-! ## Resource identifiers (go-azure-sdk id types, ARM path format) -/

/-- Common ARM path prefix of the Cosmos DB account scoped ids. -/
def accountPath (sub rg acc : String) : String :=
  "/subscriptions/" ++ sub ++ "/resourceGroups/" ++ rg ++
    "/providers/Microsoft.DocumentDB/databaseAccounts/" ++ acc

/-- `cosmosdb.ContainerId` (the fields the handlers use). -/
structure ContainerId where
  resourceGroupName : String
  databaseAccountName : String
  sqlDatabaseName : String
  containerName : String
deriving DecidableEq

/-- `cosmosdb.TriggerId`. -/
structure TriggerId where
  subscriptionId : String
  resourceGroupName : String
  databaseAccountName : String
  sqlDatabaseName : String
  containerName : String
  triggerName : String
deriving DecidableEq

/-- `TriggerId.ID()`. -/
def TriggerId.idString (id : TriggerId) : String :=
  accountPath id.subscriptionId id.resourceGroupName id.databaseAccountName ++
    "/sqlDatabases/" ++ id.sqlDatabaseName ++ "/containers/" ++ id.containerName ++
    "/triggers/" ++ id.triggerName

/-- `NewContainerID(...).ID()` as rebuilt inside the trigger read. -/
def TriggerId.containerIdString (id : TriggerId) : String :=
  accountPath id.subscriptionId id.resourceGroupName id.databaseAccountName ++
    "/sqlDatabases/" ++ id.sqlDatabaseName ++ "/containers/" ++ id.containerName

/-- `cosmosdb.UserDefinedFunctionId`. -/
structure UserDefinedFunctionId where
  subscriptionId : String
  resourceGroupName : String
  databaseAccountName : String
  sqlDatabaseName : String
  containerName : String
  userDefinedFunctionName : String
deriving DecidableEq

/-- `UserDefinedFunctionId.ID()`. -/
def UserDefinedFunctionId.idString (id : UserDefinedFunctionId) : String :=
  accountPath id.subscriptionId id.resourceGroupName id.databaseAccountName ++
    "/sqlDatabases/" ++ id.sqlDatabaseName ++ "/containers/" ++ id.containerName ++
    "/userDefinedFunctions/" ++ id.userDefinedFunctionName

/-- `NewContainerID(...).ID()` as rebuilt inside the function read. -/
def UserDefinedFunctionId.containerIdString (id : UserDefinedFunctionId) : String :=
  accountPath id.subscriptionId id.resourceGroupName id.databaseAccountName ++
    "/sqlDatabases/" ++ id.sqlDatabaseName ++ "/containers/" ++ id.containerName

/-! ## SQL trigger resource (`cosmosdb_sql_trigger_resource.go`) -/

/-- `cosmosdb.SqlTriggerResource` as decoded from a GET (pointer fields). -/
structure SqlTriggerResourceModel where
  body : Option String
  triggerOperation : Option String
  triggerType : Option String
deriving DecidableEq

/-- `SqlTriggerGetProperties`: `Resource *SqlTriggerResourceModel`. -/
structure SqlTriggerProperties where
  resource : Option SqlTriggerResourceModel
deriving DecidableEq

/-- `SqlTriggerGetResults`: `Properties *SqlTriggerProperties`. -/
structure SqlTriggerModel where
  properties : Option SqlTriggerProperties
deriving DecidableEq

/-- Environment of `resourceCosmosDbSQLTriggerRead`: the parse result of the
stored id and the response of `SqlResourcesGetSqlTrigger`. -/
structure TriggerReadEnv where
  parsedId : Option TriggerId
  get : GetResp SqlTriggerModel
deriving DecidableEq

/-- `resourceCosmosDbSQLTriggerRead`. -/
def resourceCosmosDbSQLTriggerRead (env : TriggerReadEnv) : HandlerResult :=
  match env.parsedId with
  | none => ⟨.err .parseError, []⟩
  | some id =>
    let ev : List Event := [.apiGet id.idString]
    if env.get.errored then
      if wasNotFound env.get.httpResponse then
        ⟨.ok, ev ++ [.setId ""]⟩
      else
        ⟨.err (.wrapped "retrieving CosmosDb SQLTrigger" id.idString), ev⟩
    else
      let ev2 := ev ++ [Event.setField "name" (.str id.triggerName),
        Event.setField "container_id" (.str id.containerIdString)]
      match env.get.model with
      | none => ⟨.panicked, ev2⟩
      | some m =>
        match m.properties with
        | none => ⟨.ok, ev2⟩
        | some props =>
          match props.resource with
          | none => ⟨.ok, ev2⟩
          | some r =>
            ⟨.ok, ev2 ++ [Event.setField "body" (.optStr r.body),
              Event.setField "operation" (.optStr r.triggerOperation),
              Event.setField "type" (.optStr r.triggerType)]⟩

/-- Configuration read by `resourceCosmosDbSQLTriggerCreateUpdate` (the
container-id parse error is discarded by the source, so the parsed value is
taken as given). -/
structure TriggerPayload where
  name : String
  containerId : ContainerId
  body : String
  operation : String
  typ : String
deriving DecidableEq

/-- Environment of `resourceCosmosDbSQLTriggerCreateUpdate`. -/
structure TriggerCreateUpdateEnv where
  subscriptionId : String
  payload : TriggerPayload
  isNewResource : Bool
  probe : GetResp SqlTriggerModel
  createUpdate : LroResp
  readEnv : TriggerReadEnv
deriving DecidableEq

/-- The `NewTriggerID` built by the create/update handler. -/
def triggerIdOf (sub : String) (p : TriggerPayload) : TriggerId :=
  ⟨sub, p.containerId.resourceGroupName, p.containerId.databaseAccountName,
    p.containerId.sqlDatabaseName, p.containerId.containerName, p.name⟩

/-- `resourceCosmosDbSQLTriggerCreateUpdate`: presence probe on new
resources, then the mutating call, the poll, `d.SetId` and the read. -/
def resourceCosmosDbSQLTriggerCreateUpdate (env : TriggerCreateUpdateEnv) :
    HandlerResult :=
  let id := triggerIdOf env.subscriptionId env.payload
  let probeEv : List Event := if env.isNewResource then [.apiGet id.idString] else []
  if env.isNewResource &&
      (env.probe.errored && !(wasNotFound env.probe.httpResponse)) then
    ⟨.err (.wrapped "checking for existing CosmosDb SQLTrigger" id.idString), probeEv⟩
  else if env.isNewResource && !(wasNotFound env.probe.httpResponse) then
    ⟨.err (.importAsExists "azurerm_cosmosdb_sql_trigger" id.idString), probeEv⟩
  else
    let ev := probeEv ++ [Event.apiMutate id.idString]
    if env.createUpdate.errored then
      ⟨.err (.wrapped "creating or updating CosmosDb SQLTrigger" id.idString), ev⟩
    else if env.createUpdate.pollErrored then
      ⟨.err (.wrapped "waiting for creation or update of the CosmosDb SQLTrigger"
        id.idString), ev⟩
    else
      let rd := resourceCosmosDbSQLTriggerRead env.readEnv
      ⟨rd.outcome, ev ++ [Event.setId id.idString] ++ rd.events⟩

/-- Environment of `resourceCosmosDbSQLTriggerDelete`. -/
structure TriggerDeleteEnv where
  parsedId : Option TriggerId
  delete : LroResp
deriving DecidableEq

/-- `resourceCosmosDbSQLTriggerDelete`: note that an error from the delete
call is returned unconditionally, with no not-found tolerance. -/
def resourceCosmosDbSQLTriggerDelete (env : TriggerDeleteEnv) : HandlerResult :=
  match env.parsedId with
  | none => ⟨.err .parseError, []⟩
  | some id =>
    let ev : List Event := [.apiDelete id.idString]
    if env.delete.errored then
      ⟨.err (.wrapped "deleting CosmosDb SQLResourcesSQLTrigger" id.idString), ev⟩
    else if env.delete.pollErrored then
      ⟨.err (.wrapped "waiting for deletion of the CosmosDb SQLResourcesSQLTrigger"
        id.idString), ev⟩
    else ⟨.ok, ev⟩

/-! ## SQL user-defined function resource (part_001) -/

/-- `SqlUserDefinedFunctionResource` decoded from a GET. -/
structure SqlFunctionResourceModel where
  body : Option String
deriving DecidableEq

/-- `SqlUserDefinedFunctionGetProperties`. -/
structure SqlFunctionProperties where
  resource : Option SqlFunctionResourceModel
deriving DecidableEq

/-- `SqlUserDefinedFunctionGetResults`. -/
structure SqlFunctionModel where
  properties : Option SqlFunctionProperties
deriving DecidableEq

/-- Environment of `resourceCosmosDbSQLFunctionRead`. -/
structure FunctionReadEnv where
  parsedId : Option UserDefinedFunctionId
  get : GetResp SqlFunctionModel
deriving DecidableEq

/-- `resourceCosmosDbSQLFunctionRead`. -/
def resourceCosmosDbSQLFunctionRead (env : FunctionReadEnv) : HandlerResult :=
  match env.parsedId with
  | none => ⟨.err .parseError, []⟩
  | some id =>
    let ev : List Event := [.apiGet id.idString]
    if env.get.errored then
      if wasNotFound env.get.httpResponse then
        ⟨.ok, ev ++ [.setId ""]⟩
      else
        ⟨.err (.wrapped "retrieving CosmosDb SqlFunction" id.idString), ev⟩
    else
      let ev2 := ev ++ [Event.setField "name" (.str id.userDefinedFunctionName),
        Event.setField "container_id" (.str id.containerIdString)]
      match env.get.model with
      | none => ⟨.panicked, ev2⟩
      | some m =>
        match m.properties with
        | none => ⟨.ok, ev2⟩
        | some props =>
          match props.resource with
          | none => ⟨.ok, ev2⟩
          | some r => ⟨.ok, ev2 ++ [Event.setField "body" (.optStr r.body)]⟩

/-- Configuration read by `resourceCosmosDbSQLFunctionCreateUpdate`. -/
structure FunctionPayload where
  name : String
  containerId : ContainerId
  body : String
deriving DecidableEq

/-- Environment of `resourceCosmosDbSQLFunctionCreateUpdate`. -/
structure FunctionCreateUpdateEnv where
  subscriptionId : String
  payload : FunctionPayload
  isNewResource : Bool
  probe : GetResp SqlFunctionModel
  createUpdate : LroResp
  readEnv : FunctionReadEnv
deriving DecidableEq

/-- The `NewUserDefinedFunctionID` built by the create/update handler. -/
def functionIdOf (sub : String) (p : FunctionPayload) : UserDefinedFunctionId :=
  ⟨sub, p.containerId.resourceGroupName, p.containerId.databaseAccountName,
    p.containerId.sqlDatabaseName, p.containerId.containerName, p.name⟩

/-- `resourceCosmosDbSQLFunctionCreateUpdate`. -/
def resourceCosmosDbSQLFunctionCreateUpdate (env : FunctionCreateUpdateEnv) :
    HandlerResult :=
  let id := functionIdOf env.subscriptionId env.payload
  let probeEv : List Event := if env.isNewResource then [.apiGet id.idString] else []
  if env.isNewResource &&
      (env.probe.errored && !(wasNotFound env.probe.httpResponse)) then
    ⟨.err (.wrapped "checking for existing CosmosDb SqlFunction" id.idString), probeEv⟩
  else if env.isNewResource && !(wasNotFound env.probe.httpResponse) then
    ⟨.err (.importAsExists "azurerm_cosmosdb_sql_function" id.idString), probeEv⟩
  else
    let ev := probeEv ++ [Event.apiMutate id.idString]
    if env.createUpdate.errored then
      ⟨.err (.wrapped "creating or updating CosmosDb SqlFunction" id.idString), ev⟩
    else if env.createUpdate.pollErrored then
      ⟨.err (.wrapped "waiting for creation or update of the CosmosDb SqlFunction"
        id.idString), ev⟩
    else
      let rd := resourceCosmosDbSQLFunctionRead env.readEnv
      ⟨rd.outcome, ev ++ [Event.setId id.idString] ++ rd.events⟩

/-- Environment of `resourceCosmosDbSQLFunctionDelete`. -/
structure FunctionDeleteEnv where
  parsedId : Option UserDefinedFunctionId
  delete : LroResp
deriving DecidableEq

/-- `resourceCosmosDbSQLFunctionDelete`: an error from the delete call is
returned unconditionally, with no not-found tolerance. -/
def resourceCosmosDbSQLFunctionDelete (env : FunctionDeleteEnv) : HandlerResult :=
  match env.parsedId with
  | none => ⟨.err .parseError, []⟩
  | some id =>
    let ev : List Event := [.apiDelete id.idString]
    if env.delete.errored then
      ⟨.err (.wrapped "deleting CosmosDb SqlFunction" id.idString), ev⟩
    else if env.delete.pollErrored then
      ⟨.err (.wrapped "waiting for deletion of the CosmosDb SqlFunction" id.idString), ev⟩
    else ⟨.ok, ev⟩

/-! ## SQL stored procedure resource (part_003, first file) -/

/-- `cosmosdb.StoredProcedureId`. -/
structure StoredProcedureId where
  subscriptionId : String
  resourceGroupName : String
  databaseAccountName : String
  sqlDatabaseName : String
  containerName : String
  storedProcedureName : String
deriving DecidableEq

/-- `StoredProcedureId.ID()`. -/
def StoredProcedureId.idString (id : StoredProcedureId) : String :=
  accountPath id.subscriptionId id.resourceGroupName id.databaseAccountName ++
    "/sqlDatabases/" ++ id.sqlDatabaseName ++ "/containers/" ++ id.containerName ++
    "/storedProcedures/" ++ id.storedProcedureName

/-- `SqlStoredProcedureResource` decoded from a GET. -/
structure SqlStoredProcedureResourceModel where
  body : Option String
deriving DecidableEq

/-- `SqlStoredProcedureGetProperties`. -/
structure SqlStoredProcedureProperties where
  resource : Option SqlStoredProcedureResourceModel
deriving DecidableEq

/-- `SqlStoredProcedureGetResults`: `Id *string`,
`Properties *SqlStoredProcedureProperties`. -/
structure SqlStoredProcedureModel where
  id : Option String
  properties : Option SqlStoredProcedureProperties
deriving DecidableEq

/-- Environment of `resourceCosmosDbSQLStoredProcedureRead`. -/
structure SpReadEnv where
  parsedId : Option StoredProcedureId
  get : GetResp SqlStoredProcedureModel
deriving DecidableEq

/-- `resourceCosmosDbSQLStoredProcedureRead`. -/
def resourceCosmosDbSQLStoredProcedureRead (env : SpReadEnv) : HandlerResult :=
  match env.parsedId with
  | none => ⟨.err .parseError, []⟩
  | some id =>
    let ev : List Event := [.apiGet id.idString]
    if env.get.errored then
      if wasNotFound env.get.httpResponse then
        ⟨.ok, ev ++ [.setId ""]⟩
      else
        ⟨.err (.wrapped "retrieving SQL Stored Procedure" id.storedProcedureName), ev⟩
    else
      let ev2 := ev ++ [Event.setField "resource_group_name" (.str id.resourceGroupName),
        Event.setField "account_name" (.str id.databaseAccountName),
        Event.setField "database_name" (.str id.sqlDatabaseName),
        Event.setField "container_name" (.str id.containerName),
        Event.setField "name" (.str id.storedProcedureName)]
      match env.get.model with
      | none => ⟨.panicked, ev2⟩
      | some m =>
        match m.properties with
        | none => ⟨.ok, ev2⟩
        | some props =>
          match props.resource with
          | none => ⟨.ok, ev2⟩
          | some r => ⟨.ok, ev2 ++ [Event.setField "body" (.optStr r.body)]⟩

/-- Environment of `resourceCosmosDbSQLStoredProcedureCreate`. -/
structure SpCreateEnv where
  subscriptionId : String
  resourceGroupName : String
  accountName : String
  databaseName : String
  containerName : String
  name : String
  body : String
  probe : GetResp SqlStoredProcedureModel
  create : LroResp
  readEnv : SpReadEnv
deriving DecidableEq

/-- The `NewStoredProcedureID` built by the create handler. -/
def spIdOf (env : SpCreateEnv) : StoredProcedureId :=
  ⟨env.subscriptionId, env.resourceGroupName, env.accountName,
    env.databaseName, env.containerName, env.name⟩

/-- The guard expression `existing.Model.Id == nil && *existing.Model.Id == ""`
of the stored-procedure and SQL-database create handlers, with Go
short-circuit evaluation: when `Id` is non-nil the left conjunct is false
and the right conjunct is never evaluated; when `Id` is nil the left
conjunct is true, so `*existing.Model.Id` is evaluated and dereferences the
nil pointer (a runtime panic). -/
def nilIdGuard (id : Option String) : GoResult Bool :=
  match id with
  | some _ => .ok false
  | none => .panicked

/-- `resourceCosmosDbSQLStoredProcedureCreate`.  When the probe returns
without error the source runs `nilIdGuard` on `existing.Model.Id` (a nil
`Model` pointer already panics at `existing.Model.Id`); when the guard is
true the handler would return the "generating import ID" error, otherwise
it returns the import-as-exists error on `*existing.Model.Id`. -/
def resourceCosmosDbSQLStoredProcedureCreate (env : SpCreateEnv) : HandlerResult :=
  let id := spIdOf env
  let probeEv : List Event := [.apiGet id.idString]
  if env.probe.errored then
    if !(wasNotFound env.probe.httpResponse) then
      ⟨.err (.wrapped "checking for presence of" id.idString), probeEv⟩
    else
      let ev := probeEv ++ [Event.apiMutate id.idString]
      if env.create.errored then
        ⟨.err (.wrapped "creating" id.idString), ev⟩
      else if env.create.pollErrored then
        ⟨.err (.wrapped "waiting for creation of" id.idString), ev⟩
      else
        let rd := resourceCosmosDbSQLStoredProcedureRead env.readEnv
        ⟨rd.outcome, ev ++ [Event.setId id.idString] ++ rd.events⟩
  else
    match env.probe.model with
    | none => ⟨.panicked, probeEv⟩
    | some m =>
      match nilIdGuard m.id with
      | .panicked => ⟨.panicked, probeEv⟩
      | .ok true => ⟨.err (.genImportId id.idString), probeEv⟩
      | .ok false =>
        match m.id with
        | none => ⟨.panicked, probeEv⟩
        | some existingId =>
          ⟨.err (.importAsExists "azurerm_cosmosdb_sql_stored_procedure" existingId),
            probeEv⟩

/-- Environment of `resourceCosmosDbSQLStoredProcedureUpdate`. -/
structure SpUpdateEnv where
  parsedId : Option StoredProcedureId
  body : String
  update : LroResp
  readEnv : SpReadEnv
deriving DecidableEq

/-- `resourceCosmosDbSQLStoredProcedureUpdate`: issues the mutating call,
polls it, and returns the read handler's result; it never calls `d.SetId`. -/
def resourceCosmosDbSQLStoredProcedureUpdate (env : SpUpdateEnv) : HandlerResult :=
  match env.parsedId with
  | none => ⟨.err .parseError, []⟩
  | some id =>
    let ev : List Event := [.apiMutate id.idString]
    if env.update.errored then
      ⟨.err (.wrapped "updating SQL Stored Procedure" id.storedProcedureName), ev⟩
    else if env.update.pollErrored then
      ⟨.err (.wrapped "waiting for update of SQL Stored Procedure"
        id.storedProcedureName), ev⟩
    else
      let rd := resourceCosmosDbSQLStoredProcedureRead env.readEnv
      ⟨rd.outcome, ev ++ rd.events⟩

/-- Environment of `resourceCosmosDbSQLStoredProcedureDelete`. -/
structure SpDeleteEnv where
  parsedId : Option StoredProcedureId
  delete : LroResp
deriving DecidableEq

/-- `resourceCosmosDbSQLStoredProcedureDelete`: a not-found response from
the delete call is tolerated; the poll step then still runs. -/
def resourceCosmosDbSQLStoredProcedureDelete (env : SpDeleteEnv) : HandlerResult :=
  match env.parsedId with
  | none => ⟨.err .parseError, []⟩
  | some id =>
    let ev : List Event := [.apiDelete id.idString]
    if env.delete.errored && !(wasNotFound env.delete.httpResponse) then
      ⟨.err (.wrapped "deleting SQL Stored Procedure" id.storedProcedureName), ev⟩
    else if env.delete.pollErrored then
      ⟨.err (.wrapped "waiting for deletion of SQL Stored Procedure"
        id.storedProcedureName), ev⟩
    else ⟨.ok, ev⟩

/-! ## SQL database resource (part_004) and data source
(`cosmosdb_sql_database_data_source.go`, first file) -/

/-- `cosmosdb.SqlDatabaseId`. -/
structure SqlDatabaseId where
  subscriptionId : String
  resourceGroupName : String
  databaseAccountName : String
  sqlDatabaseName : String
deriving DecidableEq

/-- `SqlDatabaseId.ID()`. -/
def SqlDatabaseId.idString (id : SqlDatabaseId) : String :=
  accountPath id.subscriptionId id.resourceGroupName id.databaseAccountName ++
    "/sqlDatabases/" ++ id.sqlDatabaseName

/-- `SqlDatabaseResource` decoded from a GET (`Id` is required). -/
structure SqlDatabaseResourceModel where
  id : String
deriving DecidableEq

/-- `SqlDatabaseGetProperties`. -/
structure SqlDatabaseProperties where
  resource : Option SqlDatabaseResourceModel
deriving DecidableEq

/-- `SqlDatabaseGetResults`: `Id *string`, `Properties *...`. -/
structure SqlDatabaseModel where
  id : Option String
  properties : Option SqlDatabaseProperties
deriving DecidableEq

/-- The decoded throughput-settings model; only the fact that the common
helper sets the two schema fields from it matters here. -/
structure ThroughputModel where
  throughput : Option Int
  autoscaleMaxThroughput : Option Int
deriving DecidableEq

/-- Modelled from the spec: `common.SetResourceDataThroughputFromResponse`
(common package, not part of the extract) projects the fetched throughput
settings into the `throughput` and `autoscale_settings` schema fields. -/
def setThroughputEvents (m : ThroughputModel) : List Event :=
  [Event.setField "throughput"
    (match m.throughput with
      | some t => .str (toString t)
      | none => .null),
   Event.setField "autoscale_settings"
    (match m.autoscaleMaxThroughput with
      | some t => .str (toString t)
      | none => .null)]

/-- Environment of `resourceCosmosDbSQLDatabaseRead`: the database GET, the
account GET and the conditional throughput GET. -/
structure DbReadEnv where
  parsedId : Option SqlDatabaseId
  get : GetResp SqlDatabaseModel
  accountGet : GetResp DatabaseAccountGetResults
  throughputGet : GetResp ThroughputModel
deriving DecidableEq

/-- The throughput-fetch block shared verbatim by the resource read and the
data-source read: a non-404 error is returned, a 404 clears the two fields,
success projects the model into them. -/
def dbThroughputPhase (id : SqlDatabaseId) (resp : GetResp ThroughputModel) :
    Outcome × List Event :=
  let ev : List Event := [.apiThroughputGet id.idString]
  if resp.errored then
    if !(wasNotFound resp.httpResponse) then
      (.err (.wrapped "reading Throughput on Cosmos SQL Database" id.sqlDatabaseName), ev)
    else
      (.ok, ev ++ [Event.setField "throughput" .null,
        Event.setField "autoscale_settings" .null])
  else
    match resp.model with
    | none => (.panicked, ev)
    | some m => (.ok, ev ++ setThroughputEvents m)

/-- The account fetch and serverless gate shared by the resource read and
the data-source read: fetch the account, fail when its id is nil or empty,
and fetch the throughput only when `IsServerlessCapacityMode` is false. -/
def dbAccountPhase (id : SqlDatabaseId) (accountGet : GetResp DatabaseAccountGetResults)
    (throughputGet : GetResp ThroughputModel) : Outcome × List Event :=
  let ev : List Event := [.apiAccountGet
    (accountPath id.subscriptionId id.resourceGroupName id.databaseAccountName)]
  if accountGet.errored then
    (.err (.wrapped "reading CosmosDB Account" id.databaseAccountName), ev)
  else
    match accountGet.model with
    | none => (.panicked, ev)
    | some acc =>
      match acc.id with
      | none => (.err (.plain "cosmosDB Account ID is empty or nil"), ev)
      | some accId =>
        if accId == "" then
          (.err (.plain "cosmosDB Account ID is empty or nil"), ev)
        else if !(IsServerlessCapacityMode acc) then
          let tp := dbThroughputPhase id throughputGet
          (tp.1, ev ++ tp.2)
        else (.ok, ev)

/-- `resourceCosmosDbSQLDatabaseRead`. -/
def resourceCosmosDbSQLDatabaseRead (env : DbReadEnv) : HandlerResult :=
  match env.parsedId with
  | none => ⟨.err .parseError, []⟩
  | some id =>
    let ev : List Event := [.apiGet id.idString]
    if env.get.errored then
      if wasNotFound env.get.httpResponse then
        ⟨.ok, ev ++ [.setId ""]⟩
      else
        ⟨.err (.wrapped "reading Cosmos SQL Database" id.sqlDatabaseName), ev⟩
    else
      let ev2 := ev ++ [Event.setField "resource_group_name" (.str id.resourceGroupName),
        Event.setField "account_name" (.str id.databaseAccountName)]
      match env.get.model with
      | none => ⟨.panicked, ev2⟩
      | some m =>
        let ev3 := ev2 ++ (match m.properties with
          | some props =>
            match props.resource with
            | some res => [Event.setField "name" (.str res.id)]
            | none => []
          | none => [])
        let acct := dbAccountPhase id env.accountGet env.throughputGet
        ⟨acct.1, ev3 ++ acct.2⟩

/-- Environment of `resourceCosmosDbSQLDatabaseCreate`. -/
structure DbCreateEnv where
  subscriptionId : String
  resourceGroupName : String
  accountName : String
  name : String
  throughput : Option Int
  hasAutoscaleSettings : Bool
  probe : GetResp SqlDatabaseModel
  create : LroResp
  readEnv : DbReadEnv
deriving DecidableEq

/-- The `NewSqlDatabaseID` built by the create handler. -/
def dbIdOf (env : DbCreateEnv) : SqlDatabaseId :=
  ⟨env.subscriptionId, env.resourceGroupName, env.accountName, env.name⟩

/-- `resourceCosmosDbSQLDatabaseCreate`: same probe guard as the stored
procedure, including the panicking nil-Id conjunction. -/
def resourceCosmosDbSQLDatabaseCreate (env : DbCreateEnv) : HandlerResult :=
  let id := dbIdOf env
  let probeEv : List Event := [.apiGet id.idString]
  if env.probe.errored then
    if !(wasNotFound env.probe.httpResponse) then
      ⟨.err (.wrapped "checking for presence of" id.idString), probeEv⟩
    else
      let ev := probeEv ++ [Event.apiMutate id.idString]
      if env.create.errored then
        ⟨.err (.wrapped "issuing create or update request for" id.idString), ev⟩
      else if env.create.pollErrored then
        ⟨.err (.wrapped "waiting on create or update future for" id.idString), ev⟩
      else
        let rd := resourceCosmosDbSQLDatabaseRead env.readEnv
        ⟨rd.outcome, ev ++ [Event.setId id.idString] ++ rd.events⟩
  else
    match env.probe.model with
    | none => ⟨.panicked, probeEv⟩
    | some m =>
      match nilIdGuard m.id with
      | .panicked => ⟨.panicked, probeEv⟩
      | .ok true => ⟨.err (.genImportId id.idString), probeEv⟩
      | .ok false =>
        match m.id with
        | none => ⟨.panicked, probeEv⟩
        | some existingId =>
          ⟨.err (.importAsExists "azurerm_cosmosdb_sql_database" existingId), probeEv⟩

/-- Environment of `resourceCosmosDbSQLDatabaseUpdate`. -/
structure DbUpdateEnv where
  parsedId : Option SqlDatabaseId
  autoscaleManualConflict : Bool
  update : LroResp
  hasThroughputChange : Bool
  throughputUpdate : LroResp
  readEnv : DbReadEnv
deriving DecidableEq

/-- `resourceCosmosDbSQLDatabaseUpdate`: after the mutating call it
optionally updates the throughput (where only a not-found error aborts, any
other initial error falls through to the poll), then returns the read
handler's result; it never calls `d.SetId`. -/
def resourceCosmosDbSQLDatabaseUpdate (env : DbUpdateEnv) : HandlerResult :=
  match env.parsedId with
  | none => ⟨.err .parseError, []⟩
  | some id =>
    if env.autoscaleManualConflict then
      ⟨.err (.wrapped "updating Cosmos SQL Database" id.sqlDatabaseName), []⟩
    else
      let ev : List Event := [.apiMutate id.idString]
      if env.update.errored then
        ⟨.err (.wrapped "issuing create or update request for Cosmos SQL Database"
          id.sqlDatabaseName), ev⟩
      else if env.update.pollErrored then
        ⟨.err (.wrapped "waiting on create or update future for Cosmos SQL Database"
          id.sqlDatabaseName), ev⟩
      else if env.hasThroughputChange then
        let ev2 := ev ++ [Event.apiMutate (id.idString ++ "/throughputSettings/default")]
        if env.throughputUpdate.errored &&
            wasNotFound env.throughputUpdate.httpResponse then
          ⟨.err (.wrapped "setting Throughput for Cosmos SQL Database"
            id.sqlDatabaseName), ev2⟩
        else if env.throughputUpdate.pollErrored then
          ⟨.err (.wrapped "waiting on ThroughputUpdate future for Cosmos SQL Database"
            id.sqlDatabaseName), ev2⟩
        else
          let rd := resourceCosmosDbSQLDatabaseRead env.readEnv
          ⟨rd.outcome, ev2 ++ rd.events⟩
      else
        let rd := resourceCosmosDbSQLDatabaseRead env.readEnv
        ⟨rd.outcome, ev ++ rd.events⟩

/-- Environment of `resourceCosmosDbSQLDatabaseDelete`. -/
structure DbDeleteEnv where
  parsedId : Option SqlDatabaseId
  delete : LroResp
deriving DecidableEq

/-- `resourceCosmosDbSQLDatabaseDelete`: a not-found response from the
delete call is tolerated; the poll step then still runs. -/
def resourceCosmosDbSQLDatabaseDelete (env : DbDeleteEnv) : HandlerResult :=
  match env.parsedId with
  | none => ⟨.err .parseError, []⟩
  | some id =>
    let ev : List Event := [.apiDelete id.idString]
    if env.delete.errored && !(wasNotFound env.delete.httpResponse) then
      ⟨.err (.wrapped "deleting Cosmos SQL Database" id.sqlDatabaseName), ev⟩
    else if env.delete.pollErrored then
      ⟨.err (.wrapped "waiting on delete future for Cosmos SQL Database"
        id.sqlDatabaseName), ev⟩
    else ⟨.ok, ev⟩

/-- Environment of `dataSourceCosmosDbSQLDatabaseRead`: the id is built
from configuration, not parsed from state. -/
structure DbDataSourceReadEnv where
  subscriptionId : String
  resourceGroupName : String
  accountName : String
  name : String
  get : GetResp SqlDatabaseModel
  accountGet : GetResp DatabaseAccountGetResults
  throughputGet : GetResp ThroughputModel
deriving DecidableEq

/-- `dataSourceCosmosDbSQLDatabaseRead`: a 404 on the database GET is a
hard error for the data source; the account fetch and serverless gate are
the same as in the resource read. -/
def dataSourceCosmosDbSQLDatabaseRead (env : DbDataSourceReadEnv) : HandlerResult :=
  let id : SqlDatabaseId :=
    ⟨env.subscriptionId, env.resourceGroupName, env.accountName, env.name⟩
  let ev : List Event := [.apiGet id.idString]
  if env.get.errored then
    if wasNotFound env.get.httpResponse then
      ⟨.err (.plain "was not found"), ev⟩
    else
      ⟨.err (.wrapped "reading Cosmos SQL Database" id.sqlDatabaseName), ev⟩
  else
    let ev2 := ev ++ [Event.setId id.idString,
      Event.setField "resource_group_name" (.str id.resourceGroupName),
      Event.setField "account_name" (.str id.databaseAccountName)]
    match env.get.model with
    | none => ⟨.panicked, ev2⟩
    | some m =>
      let ev3 := ev2 ++ (match m.properties with
        | some props =>
          match props.resource with
          | some res => [Event.setField "name" (.str res.id)]
          | none => []
        | none => [])
      let acct := dbAccountPhase id env.accountGet env.throughputGet
      ⟨acct.1, ev3 ++ acct.2⟩

/-! ## SQL role assignment (part_002) and role definition (part_003,
second file) resources -/

/-- Modelled from the spec: `CosmosDbAccountResourceName` (defined in the
cosmos package outside the extract) is the resource-kind component of the
process-wide lock key, shared by every handler that serializes mutations
against a database account. -/
def CosmosDbAccountResourceName : String := "azurerm_cosmosdb_account"

/-- `rbacs.AccountId` (the id type of a SQL role assignment). -/
structure RoleAssignmentId where
  subscriptionId : String
  resourceGroupName : String
  databaseAccountName : String
  roleAssignmentId : String
deriving DecidableEq

/-- `RoleAssignmentId.ID()`. -/
def RoleAssignmentId.idString (id : RoleAssignmentId) : String :=
  accountPath id.subscriptionId id.resourceGroupName id.databaseAccountName ++
    "/sqlRoleAssignments/" ++ id.roleAssignmentId

/-- `rbacs.SqlRoleAssignmentResource` decoded from a GET. -/
structure SqlRoleAssignmentResource where
  principalId : Option String
  roleDefinitionId : Option String
  scope : Option String
deriving DecidableEq

/-- `rbacs.SqlRoleAssignment`: `Properties *SqlRoleAssignmentResource`. -/
structure SqlRoleAssignmentModel where
  properties : Option SqlRoleAssignmentResource
deriving DecidableEq

/-- Environment of `resourceCosmosDbSQLRoleAssignmentRead`. -/
structure RaReadEnv where
  parsedId : Option RoleAssignmentId
  get : GetResp SqlRoleAssignmentModel
deriving DecidableEq

/-- `resourceCosmosDbSQLRoleAssignmentRead`. -/
def resourceCosmosDbSQLRoleAssignmentRead (env : RaReadEnv) : HandlerResult :=
  match env.parsedId with
  | none => ⟨.err .parseError, []⟩
  | some id =>
    let ev : List Event := [.apiGet id.idString]
    if env.get.errored then
      if wasNotFound env.get.httpResponse then
        ⟨.ok, ev ++ [.setId ""]⟩
      else
        ⟨.err (.wrapped "retrieving" id.idString), ev⟩
    else
      let ev2 := ev ++ [Event.setField "name" (.str id.roleAssignmentId),
        Event.setField "resource_group_name" (.str id.resourceGroupName),
        Event.setField "account_name" (.str id.databaseAccountName)]
      match env.get.model with
      | none => ⟨.panicked, ev2⟩
      | some m =>
        match m.properties with
        | none => ⟨.ok, ev2⟩
        | some props =>
          ⟨.ok, ev2 ++ [Event.setField "principal_id" (.optStr props.principalId),
            Event.setField "role_definition_id" (.optStr props.roleDefinitionId),
            Event.setField "scope" (.optStr props.scope)]⟩

/-- Environment of `resourceCosmosDbSQLRoleAssignmentCreate`. -/
structure RaCreateEnv where
  subscriptionId : String
  nameFromConfig : String
  generatedUuid : Option String
  resourceGroupName : String
  accountName : String
  probe : GetResp SqlRoleAssignmentModel
  createUpdate : LroResp
  readEnv : RaReadEnv
deriving DecidableEq

/-- Body of the role-assignment create between `locks.ByName` and the
deferred `locks.UnlockByName`. -/
def raCreateLocked (env : RaCreateEnv) (id : RoleAssignmentId) :
    Outcome × List Event :=
  let probeEv : List Event := [.apiGet id.idString]
  if env.probe.errored && !(wasNotFound env.probe.httpResponse) then
    (.err (.wrapped "checking for presence of existing" id.idString), probeEv)
  else if !(wasNotFound env.probe.httpResponse) then
    (.err (.importAsExists "azurerm_cosmosdb_sql_role_assignment" id.idString), probeEv)
  else
    let ev := probeEv ++ [Event.apiMutate id.idString]
    if env.createUpdate.errored then
      (.err (.wrapped "creating or updating" id.idString), ev)
    else if env.createUpdate.pollErrored then
      (.err (.wrapped "waiting for the completion of the creating or updating of"
        id.idString), ev)
    else
      let rd := resourceCosmosDbSQLRoleAssignmentRead env.readEnv
      (rd.outcome, ev ++ [Event.setId id.idString] ++ rd.events)

/-- `resourceCosmosDbSQLRoleAssignmentCreate`: resolves the name (possibly
generating a UUID), then acquires the account lock, runs the body and
releases the lock via the deferred unlock on every exit path. -/
def resourceCosmosDbSQLRoleAssignmentCreate (env : RaCreateEnv) : HandlerResult :=
  let nameResolved : Option String :=
    if env.nameFromConfig == "" then env.generatedUuid else some env.nameFromConfig
  match nameResolved with
  | none => ⟨.err (.plain "generating UUID for Cosmos DB SQL Role Assignment"), []⟩
  | some name =>
    let id : RoleAssignmentId :=
      ⟨env.subscriptionId, env.resourceGroupName, env.accountName, name⟩
    let body := raCreateLocked env id
    ⟨body.1, [Event.lockAcquire id.databaseAccountName CosmosDbAccountResourceName] ++
      body.2 ++ [Event.lockRelease id.databaseAccountName CosmosDbAccountResourceName]⟩

/-- Environment of `resourceCosmosDbSQLRoleAssignmentUpdate`. -/
structure RaUpdateEnv where
  parsedId : Option RoleAssignmentId
  createUpdate : LroResp
  readEnv : RaReadEnv
deriving DecidableEq

/-- Body of the role-assignment update between lock and deferred unlock. -/
def raUpdateLocked (env : RaUpdateEnv) (id : RoleAssignmentId) :
    Outcome × List Event :=
  let ev : List Event := [.apiMutate id.idString]
  if env.createUpdate.errored then
    (.err (.wrapped "updating" id.idString), ev)
  else if env.createUpdate.pollErrored then
    (.err (.wrapped "waiting for the completion of the updating of" id.idString), ev)
  else
    let rd := resourceCosmosDbSQLRoleAssignmentRead env.readEnv
    (rd.outcome, ev ++ [Event.setId id.idString] ++ rd.events)

/-- `resourceCosmosDbSQLRoleAssignmentUpdate`. -/
def resourceCosmosDbSQLRoleAssignmentUpdate (env : RaUpdateEnv) : HandlerResult :=
  match env.parsedId with
  | none => ⟨.err .parseError, []⟩
  | some id =>
    let body := raUpdateLocked env id
    ⟨body.1, [Event.lockAcquire id.databaseAccountName CosmosDbAccountResourceName] ++
      body.2 ++ [Event.lockRelease id.databaseAccountName CosmosDbAccountResourceName]⟩

/-- Environment of `resourceCosmosDbSQLRoleAssignmentDelete`. -/
structure RaDeleteEnv where
  parsedId : Option RoleAssignmentId
  delete : LroResp
deriving DecidableEq

/-- Body of the role-assignment delete between lock and deferred unlock:
an error from the delete call is returned unconditionally, with no
not-found tolerance. -/
def raDeleteLocked (env : RaDeleteEnv) (id : RoleAssignmentId) :
    Outcome × List Event :=
  let ev : List Event := [.apiDelete id.idString]
  if env.delete.errored then
    (.err (.wrapped "deleting" id.idString), ev)
  else if env.delete.pollErrored then
    (.err (.wrapped "waiting for the completion of the deleting of" id.idString), ev)
  else (.ok, ev)

/-- `resourceCosmosDbSQLRoleAssignmentDelete`. -/
def resourceCosmosDbSQLRoleAssignmentDelete (env : RaDeleteEnv) : HandlerResult :=
  match env.parsedId with
  | none => ⟨.err .parseError, []⟩
  | some id =>
    let body := raDeleteLocked env id
    ⟨body.1, [Event.lockAcquire id.databaseAccountName CosmosDbAccountResourceName] ++
      body.2 ++ [Event.lockRelease id.databaseAccountName CosmosDbAccountResourceName]⟩

/-- `rbacs.SqlRoleDefinitionId`. -/
structure RoleDefinitionId where
  subscriptionId : String
  resourceGroupName : String
  databaseAccountName : String
  roleDefinitionId : String
deriving DecidableEq

/-- `RoleDefinitionId.ID()`. -/
def RoleDefinitionId.idString (id : RoleDefinitionId) : String :=
  accountPath id.subscriptionId id.resourceGroupName id.databaseAccountName ++
    "/sqlRoleDefinitions/" ++ id.roleDefinitionId

/-- `rbacs.SqlRoleDefinitionResource` decoded from a GET. -/
structure SqlRoleDefinitionResource where
  roleName : Option String
  typ : Option String
  assignableScopes : Option (List String)
  permissions : Option (List Permission)
deriving DecidableEq

/-- `rbacs.SqlRoleDefinition`: `Properties *SqlRoleDefinitionResource`. -/
structure SqlRoleDefinitionModel where
  properties : Option SqlRoleDefinitionResource
deriving DecidableEq

/-- Environment of `resourceCosmosDbSQLRoleDefinitionRead`. -/
structure RdReadEnv where
  parsedId : Option RoleDefinitionId
  get : GetResp SqlRoleDefinitionModel
deriving DecidableEq

/-- `resourceCosmosDbSQLRoleDefinitionRead`: the `permissions` field is set
through `flattenSqlRoleDefinitionPermissions`. -/
def resourceCosmosDbSQLRoleDefinitionRead (env : RdReadEnv) : HandlerResult :=
  match env.parsedId with
  | none => ⟨.err .parseError, []⟩
  | some id =>
    let ev : List Event := [.apiGet id.idString]
    if env.get.errored then
      if wasNotFound env.get.httpResponse then
        ⟨.ok, ev ++ [.setId ""]⟩
      else
        ⟨.err (.wrapped "retrieving" id.idString), ev⟩
    else
      let ev2 := ev ++ [Event.setField "role_definition_id" (.str id.roleDefinitionId),
        Event.setField "resource_group_name" (.str id.resourceGroupName),
        Event.setField "account_name" (.str id.databaseAccountName)]
      match env.get.model with
      | none => ⟨.panicked, ev2⟩
      | some m =>
        match m.properties with
        | none => ⟨.ok, ev2⟩
        | some props =>
          ⟨.ok, ev2 ++ [Event.setField "assignable_scopes"
              (.strList (FlattenStringSlice props.assignableScopes)),
            Event.setField "name" (.optStr props.roleName),
            Event.setField "type" (.optStr props.typ),
            Event.setField "permissions"
              (.perms (flattenSqlRoleDefinitionPermissions props.permissions))]⟩

/-- Environment of `resourceCosmosDbSQLRoleDefinitionCreate`. -/
structure RdCreateEnv where
  subscriptionId : String
  roleDefinitionIdFromConfig : String
  generatedUuid : Option String
  resourceGroupName : String
  accountName : String
  probe : GetResp SqlRoleDefinitionModel
  createUpdate : LroResp
  readEnv : RdReadEnv
deriving DecidableEq

/-- Body of the role-definition create between lock and deferred unlock. -/
def rdCreateLocked (env : RdCreateEnv) (id : RoleDefinitionId) :
    Outcome × List Event :=
  let probeEv : List Event := [.apiGet id.idString]
  if env.probe.errored && !(wasNotFound env.probe.httpResponse) then
    (.err (.wrapped "checking for presence of existing" id.idString), probeEv)
  else if !(wasNotFound env.probe.httpResponse) then
    (.err (.importAsExists "azurerm_cosmosdb_sql_role_definition" id.idString), probeEv)
  else
    let ev := probeEv ++ [Event.apiMutate id.idString]
    if env.createUpdate.errored then
      (.err (.wrapped "creating" id.idString), ev)
    else if env.createUpdate.pollErrored then
      (.err (.wrapped "waiting for creation of" id.idString), ev)
    else
      let rd := resourceCosmosDbSQLRoleDefinitionRead env.readEnv
      (rd.outcome, ev ++ [Event.setId id.idString] ++ rd.events)

/-- `resourceCosmosDbSQLRoleDefinitionCreate`. -/
def resourceCosmosDbSQLRoleDefinitionCreate (env : RdCreateEnv) : HandlerResult :=
  let idResolved : Option String :=
    if env.roleDefinitionIdFromConfig == "" then env.generatedUuid
    else some env.roleDefinitionIdFromConfig
  match idResolved with
  | none => ⟨.err (.plain "generating UUID for Cosmos DB SQL Role Definition"), []⟩
  | some roleDefId =>
    let id : RoleDefinitionId :=
      ⟨env.subscriptionId, env.resourceGroupName, env.accountName, roleDefId⟩
    let body := rdCreateLocked env id
    ⟨body.1, [Event.lockAcquire id.databaseAccountName CosmosDbAccountResourceName] ++
      body.2 ++ [Event.lockRelease id.databaseAccountName CosmosDbAccountResourceName]⟩

/-- Environment of `resourceCosmosDbSQLRoleDefinitionUpdate`. -/
structure RdUpdateEnv where
  parsedId : Option RoleDefinitionId
  createUpdate : LroResp
  readEnv : RdReadEnv
deriving DecidableEq

/-- Body of the role-definition update between lock and deferred unlock. -/
def rdUpdateLocked (env : RdUpdateEnv) (id : RoleDefinitionId) :
    Outcome × List Event :=
  let ev : List Event := [.apiMutate id.idString]
  if env.createUpdate.errored then
    (.err (.wrapped "updating" id.idString), ev)
  else if env.createUpdate.pollErrored then
    (.err (.wrapped "waiting for update of" id.idString), ev)
  else
    let rd := resourceCosmosDbSQLRoleDefinitionRead env.readEnv
    (rd.outcome, ev ++ [Event.setId id.idString] ++ rd.events)

/-- `resourceCosmosDbSQLRoleDefinitionUpdate`. -/
def resourceCosmosDbSQLRoleDefinitionUpdate (env : RdUpdateEnv) : HandlerResult :=
  match env.parsedId with
  | none => ⟨.err .parseError, []⟩
  | some id =>
    let body := rdUpdateLocked env id
    ⟨body.1, [Event.lockAcquire id.databaseAccountName CosmosDbAccountResourceName] ++
      body.2 ++ [Event.lockRelease id.databaseAccountName CosmosDbAccountResourceName]⟩

/-- Environment of `resourceCosmosDbSQLRoleDefinitionDelete`. -/
structure RdDeleteEnv where
  parsedId : Option RoleDefinitionId
  delete : LroResp
deriving DecidableEq

/-- Body of the role-definition delete between lock and deferred unlock:
an error from the delete call is returned unconditionally, with no
not-found tolerance. -/
def rdDeleteLocked (env : RdDeleteEnv) (id : RoleDefinitionId) :
    Outcome × List Event :=
  let ev : List Event := [.apiDelete id.idString]
  if env.delete.errored then
    (.err (.wrapped "deleting" id.idString), ev)
  else if env.delete.pollErrored then
    (.err (.wrapped "waiting for deletion of" id.idString), ev)
  else (.ok, ev)

/-- `resourceCosmosDbSQLRoleDefinitionDelete`. -/
def resourceCosmosDbSQLRoleDefinitionDelete (env : RdDeleteEnv) : HandlerResult :=
  match env.parsedId with
  | none => ⟨.err .parseError, []⟩
  | some id =>
    let body := rdDeleteLocked env id
    ⟨body.1, [Event.lockAcquire id.databaseAccountName CosmosDbAccountResourceName] ++
      body.2 ++ [Event.lockRelease id.databaseAccountName CosmosDbAccountResourceName]⟩

/-! ## Trace predicates -/

/-- Whether an event is a remote client call. -/
def Event.isApiCall : Event → Bool
  | .apiGet _ => true
  | .apiMutate _ => true
  | .apiDelete _ => true
  | .apiAccountGet _ => true
  | .apiThroughputGet _ => true
  | _ => false

/-- Whether an event is a lock acquisition or release. -/
def Event.isLockEvent : Event → Bool
  | .lockAcquire _ _ => true
  | .lockRelease _ _ => true
  | _ => false

/-- A trace containing no lock events. -/
def noLockEvents (l : List Event) : Bool :=
  l.all (fun e => !(e.isLockEvent))

/-- Lock discipline of a trace, checked from a given held-lock count:
releases only match earlier acquires, client calls happen only while the
lock is held, and the count is back to zero at the end of the trace. -/
def lockDisciplineFrom : List Event → Nat → Bool
  | [], depth => depth == 0
  | .lockAcquire _ _ :: rest, depth => lockDisciplineFrom rest (depth + 1)
  | .lockRelease _ _ :: rest, depth =>
    (match depth with
      | 0 => false
      | d + 1 => lockDisciplineFrom rest d)
  | e :: rest, depth => (!(e.isApiCall) || depth != 0) && lockDisciplineFrom rest depth

/-- Lock discipline of a complete handler trace. -/
def lockDiscipline (l : List Event) : Bool :=
  lockDisciplineFrom l 0

/-- Number of lock acquisitions in a trace. -/
def acquireCount (l : List Event) : Nat :=
  (l.filter (fun e => match e with
    | .lockAcquire _ _ => true
    | _ => false)).length

/-- Every lock event in the trace uses the given key. -/
def lockKeysAre (l : List Event) (name kind : String) : Bool :=
  l.all (fun e => match e with
    | .lockAcquire n k => n == name && k == kind
    | .lockRelease n k => n == name && k == kind
    | _ => true)

/-- The trace contains a mutating client call. -/
def hasMutate (l : List Event) : Bool :=
  l.any (fun e => match e with
    | .apiMutate _ => true
    | _ => false)

/-- The trace contains a throughput-fetch client call. -/
def hasThroughputCall (l : List Event) : Bool :=
  l.any (fun e => match e with
    | .apiThroughputGet _ => true
    | _ => false)

/-- The trace contains a `d.SetId` call. -/
def hasSetId (l : List Event) : Bool :=
  l.any (fun e => match e with
    | .setId _ => true
    | _ => false)

/-- No mutating call occurs before the first GET of the trace: together
with `hasMutate` it expresses that the existence probe strictly precedes
the mutating call. -/
def noMutateBeforeGet : List Event → Bool
  | [] => true
  | .apiMutate _ :: _ => false
  | .apiGet _ :: _ => true
  | _ :: rest => noMutateBeforeGet rest

/-! ## Theorems -/

/-- C6: `IsServerlessCapacityMode` returns true exactly when the account's
properties pointer is non-nil, its capability-list pointer is non-nil, and
some capability has a non-nil name equal to "EnableServerless"; in
particular it is true for the capability list containing exactly the entry
named "EnableServerless", and false for nil properties or a nil capability
list. -/
theorem C6_IsServerlessCapacityMode_spec :
    ∀ acc : DatabaseAccountGetResults,
      (IsServerlessCapacityMode acc = true ↔
        ∃ props, acc.properties = some props ∧
          ∃ caps, props.capabilities = some caps ∧
            ∃ c ∈ caps, c.name = some "EnableServerless") ∧
      IsServerlessCapacityMode
        ⟨some "account-id", some ⟨some [⟨some "EnableServerless"⟩]⟩⟩ = true ∧
      IsServerlessCapacityMode ⟨some "account-id", none⟩ = false ∧
      IsServerlessCapacityMode ⟨some "account-id", some ⟨none⟩⟩ = false := by
  intro acc
  refine ⟨?_, by decide, by decide, by decide⟩
  rcases acc with ⟨aid, props⟩
  cases props with
  | none => simp [IsServerlessCapacityMode]
  | some p =>
    rcases p with ⟨caps⟩
    cases caps with
    | none => simp [IsServerlessCapacityMode]
    | some cs =>
      simp only [IsServerlessCapacityMode, List.any_eq_true]
      constructor
      · rintro ⟨c, hmem, hmatch⟩
        refine ⟨⟨some cs⟩, rfl, cs, rfl, c, hmem, ?_⟩
        cases hn : c.name with
        | none => rw [hn] at hmatch; exact absurd hmatch (by simp)
        | some n =>
          rw [hn] at hmatch
          simp only [beq_iff_eq] at hmatch
          rw [hmatch]
      · rintro ⟨props2, hp, caps2, hc, c, hmem, hn⟩
        cases hp
        cases hc
        exact ⟨c, hmem, by rw [hn]; simp⟩

/-- C3: flatten behaviour on nil and empty inputs.
`flattenSqlRoleDefinitionPermissions` tolerates a nil pointer and returns
the empty (non-nil, by `make`) list, but the two restorable-accounts
flatten functions evaluate `len` of the dereferenced slice pointer first,
so a nil pointer panics; an empty non-nil slice flattens to the empty
list. -/
theorem C3_flatten_nil_and_empty :
    flattenSqlRoleDefinitionPermissions none = [] ∧
    flattenCosmosDbRestorableDatabaseAccountsRestorableLocations none = .panicked ∧
    flattenCosmosDbRestorableDatabaseAccountsRestorableLocations (some []) = .ok [] ∧
    flattenCosmosDbRestorableDatabaseAccounts none "acct1" = .panicked ∧
    flattenCosmosDbRestorableDatabaseAccounts (some []) "acct1" = .ok [] :=
  ⟨rfl, rfl, rfl, rfl, rfl⟩

/-- C4 counterexample: the round trip is not the identity on every
permissions value, because a nil permissions pointer comes back as a
pointer to an empty slice. -/
theorem C4_roundTrip_counterexample :
    expandSqlRoleDefinitionPermissions (flattenSqlRoleDefinitionPermissions none) =
      some [] ∧
    some ([] : List Permission) ≠ (none : Option (List Permission)) :=
  ⟨rfl, by simp⟩

/-- Helper for C4: expanding the flattening of a non-nil string-slice
pointer returns the same pointer contents. -/
theorem ExpandStringSlice_FlattenStringSlice (xs : List String) :
    ExpandStringSlice (FlattenStringSlice (some xs)) = some xs := by
  simp only [FlattenStringSlice, ExpandStringSlice, Option.some.injEq, List.map_map]
  have hcomp : ((fun item => match item with
      | some s => s
      | none => "") ∘ (some : String → Option String)) = id := by
    funext s
    rfl
  rw [hcomp, List.map_id]

/-- C4 (amended): on a non-nil permissions list in which every
`DataActions` pointer is non-nil, expand after flatten is the identity. -/
theorem C4_expand_flatten_roundTrip :
    ∀ l : List Permission, (∀ p ∈ l, p.dataActions ≠ none) →
      expandSqlRoleDefinitionPermissions (flattenSqlRoleDefinitionPermissions (some l)) =
        some l := by
  intro l h
  simp only [expandSqlRoleDefinitionPermissions, flattenSqlRoleDefinitionPermissions,
    Option.some.injEq, List.map_map]
  induction l with
  | nil => rfl
  | cons p rest ih =>
    have hp : p.dataActions ≠ none := h p (List.mem_cons_self p rest)
    have hrest := ih (fun q hq => h q (List.mem_cons_of_mem p hq))
    rw [List.map_cons, hrest]
    congr 1
    rcases p with ⟨da⟩
    cases da with
    | none => exact absurd rfl hp
    | some xs =>
      show Permission.mk (ExpandStringSlice (FlattenStringSlice (some xs))) = ⟨some xs⟩
      rw [ExpandStringSlice_FlattenStringSlice]

/-- C4 witness: the amended round trip at a concrete two-element list. -/
theorem C4_expand_flatten_roundTrip_witness :
    expandSqlRoleDefinitionPermissions (flattenSqlRoleDefinitionPermissions
        (some [⟨some ["read", "write"]⟩, ⟨some []⟩])) =
      some [⟨some ["read", "write"]⟩, ⟨some []⟩] :=
  C4_expand_flatten_roundTrip [⟨some ["read", "write"]⟩, ⟨some []⟩] (by decide)

/-- C1 counterexample: deleting an already-deleted trigger (the delete
call reports an error with a 404 response) returns an error, not nil. -/
theorem C1_triggerDelete_notFound_errors :
    (resourceCosmosDbSQLTriggerDelete
        ⟨some ⟨"sub1", "rg1", "acct1", "db1", "cont1", "trig1"⟩,
          ⟨true, some 404, false⟩⟩).outcome ≠ .ok ∧
    (resourceCosmosDbSQLTriggerDelete
        ⟨some ⟨"sub1", "rg1", "acct1", "db1", "cont1", "trig1"⟩,
          ⟨true, some 404, false⟩⟩).outcome =
      .err (.wrapped "deleting CosmosDb SQLResourcesSQLTrigger"
        (TriggerId.idString ⟨"sub1", "rg1", "acct1", "db1", "cont1", "trig1"⟩)) := by
  constructor
  · decide
  · rfl

/-- C1 (amended): only the stored-procedure and SQL-database delete
handlers tolerate a not-found delete response (returning nil provided the
subsequent poll step does not error); the trigger, user-defined-function,
role-assignment and role-definition delete handlers return a wrapped error
whenever the delete call errors with a 404 response. -/
theorem C1_delete_notFound_behavior :
    (∀ (id : TriggerId) (del : LroResp), del.errored = true →
      wasNotFound del.httpResponse = true →
      (resourceCosmosDbSQLTriggerDelete ⟨some id, del⟩).outcome =
        .err (.wrapped "deleting CosmosDb SQLResourcesSQLTrigger" id.idString)) ∧
    (∀ (id : UserDefinedFunctionId) (del : LroResp), del.errored = true →
      wasNotFound del.httpResponse = true →
      (resourceCosmosDbSQLFunctionDelete ⟨some id, del⟩).outcome =
        .err (.wrapped "deleting CosmosDb SqlFunction" id.idString)) ∧
    (∀ (id : RoleAssignmentId) (del : LroResp), del.errored = true →
      wasNotFound del.httpResponse = true →
      (resourceCosmosDbSQLRoleAssignmentDelete ⟨some id, del⟩).outcome =
        .err (.wrapped "deleting" id.idString)) ∧
    (∀ (id : RoleDefinitionId) (del : LroResp), del.errored = true →
      wasNotFound del.httpResponse = true →
      (resourceCosmosDbSQLRoleDefinitionDelete ⟨some id, del⟩).outcome =
        .err (.wrapped "deleting" id.idString)) ∧
    (∀ (id : StoredProcedureId) (del : LroResp), del.errored = true →
      wasNotFound del.httpResponse = true → del.pollErrored = false →
      (resourceCosmosDbSQLStoredProcedureDelete ⟨some id, del⟩).outcome = .ok) ∧
    (∀ (id : SqlDatabaseId) (del : LroResp), del.errored = true →
      wasNotFound del.httpResponse = true → del.pollErrored = false →
      (resourceCosmosDbSQLDatabaseDelete ⟨some id, del⟩).outcome = .ok) := by
  refine ⟨?_, ?_, ?_, ?_, ?_, ?_⟩
  · intro id del h1 h2
    simp [resourceCosmosDbSQLTriggerDelete, h1]
  · intro id del h1 h2
    simp [resourceCosmosDbSQLFunctionDelete, h1]
  · intro id del h1 h2
    simp [resourceCosmosDbSQLRoleAssignmentDelete, raDeleteLocked, h1]
  · intro id del h1 h2
    simp [resourceCosmosDbSQLRoleDefinitionDelete, rdDeleteLocked, h1]
  · intro id del h1 h2 h3
    simp [resourceCosmosDbSQLStoredProcedureDelete, h1, h2, h3]
  · intro id del h1 h2 h3
    simp [resourceCosmosDbSQLDatabaseDelete, h1, h2, h3]

/-- C1 witness: the amended behaviour at concrete inputs, for the
role-assignment handler (error) and the stored-procedure handler (nil). -/
theorem C1_delete_notFound_behavior_witness :
    (resourceCosmosDbSQLRoleAssignmentDelete
        ⟨some ⟨"sub1", "rg1", "acct1", "ra1"⟩, ⟨true, some 404, false⟩⟩).outcome =
      .err (.wrapped "deleting"
        (RoleAssignmentId.idString ⟨"sub1", "rg1", "acct1", "ra1"⟩)) ∧
    (resourceCosmosDbSQLStoredProcedureDelete
        ⟨some ⟨"sub1", "rg1", "acct1", "db1", "cont1", "sp1"⟩,
          ⟨true, some 404, false⟩⟩).outcome = .ok :=
  ⟨C1_delete_notFound_behavior.2.2.1 ⟨"sub1", "rg1", "acct1", "ra1"⟩
      ⟨true, some 404, false⟩ rfl rfl,
    C1_delete_notFound_behavior.2.2.2.2.1 ⟨"sub1", "rg1", "acct1", "db1", "cont1", "sp1"⟩
      ⟨true, some 404, false⟩ rfl rfl rfl⟩

/-- C2 counterexample: in the stored-procedure create handler, a
successful existence probe (no error, status 200) whose decoded model has
a nil `Id` makes the handler panic on a nil-pointer dereference instead of
returning the already-exists error. -/
theorem C2_spCreate_probe_nilId_panics :
    (resourceCosmosDbSQLStoredProcedureCreate
        ⟨"sub1", "rg1", "acct1", "db1", "cont1", "sp1", "body1",
          ⟨false, some 200, some ⟨none, none⟩⟩, ⟨false, none, false⟩,
          ⟨none, ⟨false, none, none⟩⟩⟩).outcome = .panicked := by
  decide

/-- C2 (amended): when the existence probe succeeds (returns without
error, so with a non-404 response), the trigger, user-defined-function,
role-assignment and role-definition create handlers fail with an
import-as-exists error naming the identifier; the stored-procedure and
SQL-database create handlers do so when the probed model and its `Id` are
non-nil, and panic on a nil-pointer dereference otherwise.  In every such
case no mutating call is issued, and on all paths of every create handler
no mutating call precedes the existence probe. -/
theorem C2_create_probe_guard :
    (∀ env : TriggerCreateUpdateEnv, env.isNewResource = true →
      env.probe.errored = false → wasNotFound env.probe.httpResponse = false →
      (resourceCosmosDbSQLTriggerCreateUpdate env).outcome =
        .err (.importAsExists "azurerm_cosmosdb_sql_trigger"
          (triggerIdOf env.subscriptionId env.payload).idString) ∧
      hasMutate (resourceCosmosDbSQLTriggerCreateUpdate env).events = false) ∧
    (∀ env : FunctionCreateUpdateEnv, env.isNewResource = true →
      env.probe.errored = false → wasNotFound env.probe.httpResponse = false →
      (resourceCosmosDbSQLFunctionCreateUpdate env).outcome =
        .err (.importAsExists "azurerm_cosmosdb_sql_function"
          (functionIdOf env.subscriptionId env.payload).idString) ∧
      hasMutate (resourceCosmosDbSQLFunctionCreateUpdate env).events = false) ∧
    (∀ (env : RaCreateEnv) (name : String),
      (if env.nameFromConfig == "" then env.generatedUuid
        else some env.nameFromConfig) = some name →
      env.probe.errored = false → wasNotFound env.probe.httpResponse = false →
      (resourceCosmosDbSQLRoleAssignmentCreate env).outcome =
        .err (.importAsExists "azurerm_cosmosdb_sql_role_assignment"
          (RoleAssignmentId.idString
            ⟨env.subscriptionId, env.resourceGroupName, env.accountName, name⟩)) ∧
      hasMutate (resourceCosmosDbSQLRoleAssignmentCreate env).events = false) ∧
    (∀ (env : RdCreateEnv) (roleDefId : String),
      (if env.roleDefinitionIdFromConfig == "" then env.generatedUuid
        else some env.roleDefinitionIdFromConfig) = some roleDefId →
      env.probe.errored = false → wasNotFound env.probe.httpResponse = false →
      (resourceCosmosDbSQLRoleDefinitionCreate env).outcome =
        .err (.importAsExists "azurerm_cosmosdb_sql_role_definition"
          (RoleDefinitionId.idString
            ⟨env.subscriptionId, env.resourceGroupName, env.accountName, roleDefId⟩)) ∧
      hasMutate (resourceCosmosDbSQLRoleDefinitionCreate env).events = false) ∧
    (∀ env : SpCreateEnv, env.probe.errored = false →
      (env.probe.model = none →
        (resourceCosmosDbSQLStoredProcedureCreate env).outcome = .panicked) ∧
      (∀ m, env.probe.model = some m → m.id = none →
        (resourceCosmosDbSQLStoredProcedureCreate env).outcome = .panicked) ∧
      (∀ m s, env.probe.model = some m → m.id = some s →
        (resourceCosmosDbSQLStoredProcedureCreate env).outcome =
          .err (.importAsExists "azurerm_cosmosdb_sql_stored_procedure" s)) ∧
      hasMutate (resourceCosmosDbSQLStoredProcedureCreate env).events = false) ∧
    (∀ env : DbCreateEnv, env.probe.errored = false →
      (env.probe.model = none →
        (resourceCosmosDbSQLDatabaseCreate env).outcome = .panicked) ∧
      (∀ m, env.probe.model = some m → m.id = none →
        (resourceCosmosDbSQLDatabaseCreate env).outcome = .panicked) ∧
      (∀ m s, env.probe.model = some m → m.id = some s →
        (resourceCosmosDbSQLDatabaseCreate env).outcome =
          .err (.importAsExists "azurerm_cosmosdb_sql_database" s)) ∧
      hasMutate (resourceCosmosDbSQLDatabaseCreate env).events = false) ∧
    (∀ env : TriggerCreateUpdateEnv, env.isNewResource = true →
      noMutateBeforeGet (resourceCosmosDbSQLTriggerCreateUpdate env).events = true) ∧
    (∀ env : FunctionCreateUpdateEnv, env.isNewResource = true →
      noMutateBeforeGet (resourceCosmosDbSQLFunctionCreateUpdate env).events = true) ∧
    (∀ env : SpCreateEnv,
      noMutateBeforeGet (resourceCosmosDbSQLStoredProcedureCreate env).events = true) ∧
    (∀ env : DbCreateEnv,
      noMutateBeforeGet (resourceCosmosDbSQLDatabaseCreate env).events = true) ∧
    (∀ env : RaCreateEnv,
      noMutateBeforeGet (resourceCosmosDbSQLRoleAssignmentCreate env).events = true) ∧
    (∀ env : RdCreateEnv,
      noMutateBeforeGet (resourceCosmosDbSQLRoleDefinitionCreate env).events = true) := by
  refine ⟨?_, ?_, ?_, ?_, ?_, ?_, ?_, ?_, ?_, ?_, ?_, ?_⟩
  · intro env hNew hErr hNF
    simp [resourceCosmosDbSQLTriggerCreateUpdate, hNew, hErr, hNF, hasMutate]
  · intro env hNew hErr hNF
    simp [resourceCosmosDbSQLFunctionCreateUpdate, hNew, hErr, hNF, hasMutate]
  · intro env name hname hErr hNF
    simp only [resourceCosmosDbSQLRoleAssignmentCreate, hname]
    simp [raCreateLocked, hErr, hNF, hasMutate]
  · intro env roleDefId hname hErr hNF
    simp only [resourceCosmosDbSQLRoleDefinitionCreate, hname]
    simp [rdCreateLocked, hErr, hNF, hasMutate]
  · intro env hErr
    refine ⟨?_, ?_, ?_, ?_⟩
    · intro hm
      simp [resourceCosmosDbSQLStoredProcedureCreate, hErr, hm]
    · intro m hm hid
      simp [resourceCosmosDbSQLStoredProcedureCreate, hErr, hm, hid, nilIdGuard]
    · intro m s hm hid
      simp [resourceCosmosDbSQLStoredProcedureCreate, hErr, hm, hid, nilIdGuard]
    · cases hm : env.probe.model with
      | none => simp [resourceCosmosDbSQLStoredProcedureCreate, hErr, hm, hasMutate]
      | some m =>
        cases hid : m.id with
        | none =>
          simp [resourceCosmosDbSQLStoredProcedureCreate, hErr, hm, hid,
            nilIdGuard, hasMutate]
        | some s =>
          simp [resourceCosmosDbSQLStoredProcedureCreate, hErr, hm, hid,
            nilIdGuard, hasMutate]
  · intro env hErr
    refine ⟨?_, ?_, ?_, ?_⟩
    · intro hm
      simp [resourceCosmosDbSQLDatabaseCreate, hErr, hm]
    · intro m hm hid
      simp [resourceCosmosDbSQLDatabaseCreate, hErr, hm, hid, nilIdGuard]
    · intro m s hm hid
      simp [resourceCosmosDbSQLDatabaseCreate, hErr, hm, hid, nilIdGuard]
    · cases hm : env.probe.model with
      | none => simp [resourceCosmosDbSQLDatabaseCreate, hErr, hm, hasMutate]
      | some m =>
        cases hid : m.id with
        | none =>
          simp [resourceCosmosDbSQLDatabaseCreate, hErr, hm, hid,
            nilIdGuard, hasMutate]
        | some s =>
          simp [resourceCosmosDbSQLDatabaseCreate, hErr, hm, hid,
            nilIdGuard, hasMutate]
  · intro env hNew
    simp only [resourceCosmosDbSQLTriggerCreateUpdate, hNew]
    split
    · simp [noMutateBeforeGet]
    · split
      · simp [noMutateBeforeGet]
      · split
        · simp [noMutateBeforeGet]
        · split <;> simp [noMutateBeforeGet]
  · intro env hNew
    simp only [resourceCosmosDbSQLFunctionCreateUpdate, hNew]
    split
    · simp [noMutateBeforeGet]
    · split
      · simp [noMutateBeforeGet]
      · split
        · simp [noMutateBeforeGet]
        · split <;> simp [noMutateBeforeGet]
  · intro env
    simp only [resourceCosmosDbSQLStoredProcedureCreate]
    split
    · split
      · simp [noMutateBeforeGet]
      · split
        · simp [noMutateBeforeGet]
        · split <;> simp [noMutateBeforeGet]
    · split
      · simp [noMutateBeforeGet]
      · split
        · simp [noMutateBeforeGet]
        · simp [noMutateBeforeGet]
        · split <;> simp [noMutateBeforeGet]
  · intro env
    simp only [resourceCosmosDbSQLDatabaseCreate]
    split
    · split
      · simp [noMutateBeforeGet]
      · split
        · simp [noMutateBeforeGet]
        · split <;> simp [noMutateBeforeGet]
    · split
      · simp [noMutateBeforeGet]
      · split
        · simp [noMutateBeforeGet]
        · simp [noMutateBeforeGet]
        · split <;> simp [noMutateBeforeGet]
  · intro env
    simp only [resourceCosmosDbSQLRoleAssignmentCreate]
    split
    · simp [noMutateBeforeGet]
    · simp only [raCreateLocked]
      split
      · simp [noMutateBeforeGet]
      · split
        · simp [noMutateBeforeGet]
        · split
          · simp [noMutateBeforeGet]
          · split <;> simp [noMutateBeforeGet]
  · intro env
    simp only [resourceCosmosDbSQLRoleDefinitionCreate]
    split
    · simp [noMutateBeforeGet]
    · simp only [rdCreateLocked]
      split
      · simp [noMutateBeforeGet]
      · split
        · simp [noMutateBeforeGet]
        · split
          · simp [noMutateBeforeGet]
          · split <;> simp [noMutateBeforeGet]

/-- C2 witness: the amended guard at concrete inputs — the trigger handler
returns the import-as-exists error on a successful probe, and the
stored-procedure handler returns it when the probed `Id` is non-nil. -/
theorem C2_create_probe_guard_witness :
    (resourceCosmosDbSQLTriggerCreateUpdate
        ⟨"sub1", ⟨"trig1", ⟨"rg1", "acct1", "db1", "cont1"⟩, "b", "All", "Pre"⟩, true,
          ⟨false, some 200, none⟩, ⟨false, none, false⟩,
          ⟨none, ⟨false, none, none⟩⟩⟩).outcome =
      .err (.importAsExists "azurerm_cosmosdb_sql_trigger"
        (triggerIdOf "sub1" ⟨"trig1", ⟨"rg1", "acct1", "db1", "cont1"⟩,
          "b", "All", "Pre"⟩).idString) ∧
    (resourceCosmosDbSQLStoredProcedureCreate
        ⟨"sub1", "rg1", "acct1", "db1", "cont1", "sp1", "body1",
          ⟨false, some 200, some ⟨some "sp1", none⟩⟩, ⟨false, none, false⟩,
          ⟨none, ⟨false, none, none⟩⟩⟩).outcome =
      .err (.importAsExists "azurerm_cosmosdb_sql_stored_procedure" "sp1") :=
  ⟨(C2_create_probe_guard.1
      ⟨"sub1", ⟨"trig1", ⟨"rg1", "acct1", "db1", "cont1"⟩, "b", "All", "Pre"⟩, true,
        ⟨false, some 200, none⟩, ⟨false, none, false⟩,
        ⟨none, ⟨false, none, none⟩⟩⟩ rfl rfl rfl).1,
    ((C2_create_probe_guard.2.2.2.2.1
        ⟨"sub1", "rg1", "acct1", "db1", "cont1", "sp1", "body1",
          ⟨false, some 200, some ⟨some "sp1", none⟩⟩, ⟨false, none, false⟩,
          ⟨none, ⟨false, none, none⟩⟩⟩ rfl).2.2.1 ⟨some "sp1", none⟩ "sp1" rfl rfl)⟩

/-- C10: in the stored-procedure and SQL-database create handlers the
guard `existing.Model.Id == nil && *existing.Model.Id == ""` never
evaluates to true — a nil `Id` panics while evaluating the right conjunct,
a non-nil `Id` short-circuits to false — so on a successful probe the
"generating import ID" branch is unreachable, the handler panics for a nil
`Id`, and returns the import-as-exists error for every non-nil `Id`. -/
theorem C10_create_guard_nil_id :
    (∀ o : Option String, nilIdGuard o ≠ .ok true) ∧
    (∀ o : Option String, o = none → nilIdGuard o = .panicked) ∧
    (∀ env : SpCreateEnv, env.probe.errored = false →
      ∀ m, env.probe.model = some m →
      (m.id = none →
        (resourceCosmosDbSQLStoredProcedureCreate env).outcome = .panicked) ∧
      (∀ s, m.id = some s →
        (resourceCosmosDbSQLStoredProcedureCreate env).outcome =
          .err (.importAsExists "azurerm_cosmosdb_sql_stored_procedure" s)) ∧
      (∀ s, (resourceCosmosDbSQLStoredProcedureCreate env).outcome ≠
        .err (.genImportId s))) ∧
    (∀ env : DbCreateEnv, env.probe.errored = false →
      ∀ m, env.probe.model = some m →
      (m.id = none →
        (resourceCosmosDbSQLDatabaseCreate env).outcome = .panicked) ∧
      (∀ s, m.id = some s →
        (resourceCosmosDbSQLDatabaseCreate env).outcome =
          .err (.importAsExists "azurerm_cosmosdb_sql_database" s)) ∧
      (∀ s, (resourceCosmosDbSQLDatabaseCreate env).outcome ≠
        .err (.genImportId s))) := by
  refine ⟨?_, ?_, ?_, ?_⟩
  · intro o
    cases o <;> simp [nilIdGuard]
  · intro o ho
    rw [ho]
    rfl
  · intro env hErr m hm
    refine ⟨?_, ?_, ?_⟩
    · intro hid
      simp [resourceCosmosDbSQLStoredProcedureCreate, hErr, hm, hid, nilIdGuard]
    · intro s hid
      simp [resourceCosmosDbSQLStoredProcedureCreate, hErr, hm, hid, nilIdGuard]
    · intro s
      cases hid : m.id with
      | none =>
        simp [resourceCosmosDbSQLStoredProcedureCreate, hErr, hm, hid, nilIdGuard]
      | some v =>
        simp [resourceCosmosDbSQLStoredProcedureCreate, hErr, hm, hid, nilIdGuard]
  · intro env hErr m hm
    refine ⟨?_, ?_, ?_⟩
    · intro hid
      simp [resourceCosmosDbSQLDatabaseCreate, hErr, hm, hid, nilIdGuard]
    · intro s hid
      simp [resourceCosmosDbSQLDatabaseCreate, hErr, hm, hid, nilIdGuard]
    · intro s
      cases hid : m.id with
      | none =>
        simp [resourceCosmosDbSQLDatabaseCreate, hErr, hm, hid, nilIdGuard]
      | some v =>
        simp [resourceCosmosDbSQLDatabaseCreate, hErr, hm, hid, nilIdGuard]

/-- C10 witness: the guard at concrete inputs — the SQL-database create
panics on a successful probe with nil `Id` and returns import-as-exists on
a non-nil `Id`. -/
theorem C10_create_guard_nil_id_witness :
    (resourceCosmosDbSQLDatabaseCreate
        ⟨"sub1", "rg1", "acct1", "db1", none, false,
          ⟨false, some 200, some ⟨none, none⟩⟩, ⟨false, none, false⟩,
          ⟨none, ⟨false, none, none⟩, ⟨false, none, none⟩,
            ⟨false, none, none⟩⟩⟩).outcome = .panicked ∧
    (resourceCosmosDbSQLDatabaseCreate
        ⟨"sub1", "rg1", "acct1", "db1", none, false,
          ⟨false, some 200, some ⟨some "db1", none⟩⟩, ⟨false, none, false⟩,
          ⟨none, ⟨false, none, none⟩, ⟨false, none, none⟩,
            ⟨false, none, none⟩⟩⟩).outcome =
      .err (.importAsExists "azurerm_cosmosdb_sql_database" "db1") :=
  ⟨(C10_create_guard_nil_id.2.2.2
      ⟨"sub1", "rg1", "acct1", "db1", none, false,
        ⟨false, some 200, some ⟨none, none⟩⟩, ⟨false, none, false⟩,
        ⟨none, ⟨false, none, none⟩, ⟨false, none, none⟩,
          ⟨false, none, none⟩⟩⟩ rfl ⟨none, none⟩ rfl).1 rfl,
    ((C10_create_guard_nil_id.2.2.2
      ⟨"sub1", "rg1", "acct1", "db1", none, false,
        ⟨false, some 200, some ⟨some "db1", none⟩⟩, ⟨false, none, false⟩,
        ⟨none, ⟨false, none, none⟩, ⟨false, none, none⟩,
          ⟨false, none, none⟩⟩⟩ rfl ⟨some "db1", none⟩ rfl).2.1) "db1" rfl⟩

/-- C9: in every resource read handler, a 404 on the resource GET is not
an error — the handler clears the stored identifier and returns nil —
while any other GET error is returned wrapped with the identifier. -/
theorem C9_read_notFound_handling :
    (∀ (env : TriggerReadEnv) (id : TriggerId), env.parsedId = some id →
      env.get.errored = true →
      (wasNotFound env.get.httpResponse = true →
        (resourceCosmosDbSQLTriggerRead env).outcome = .ok ∧
        Event.setId "" ∈ (resourceCosmosDbSQLTriggerRead env).events) ∧
      (wasNotFound env.get.httpResponse = false →
        (resourceCosmosDbSQLTriggerRead env).outcome =
          .err (.wrapped "retrieving CosmosDb SQLTrigger" id.idString))) ∧
    (∀ (env : FunctionReadEnv) (id : UserDefinedFunctionId), env.parsedId = some id →
      env.get.errored = true →
      (wasNotFound env.get.httpResponse = true →
        (resourceCosmosDbSQLFunctionRead env).outcome = .ok ∧
        Event.setId "" ∈ (resourceCosmosDbSQLFunctionRead env).events) ∧
      (wasNotFound env.get.httpResponse = false →
        (resourceCosmosDbSQLFunctionRead env).outcome =
          .err (.wrapped "retrieving CosmosDb SqlFunction" id.idString))) ∧
    (∀ (env : SpReadEnv) (id : StoredProcedureId), env.parsedId = some id →
      env.get.errored = true →
      (wasNotFound env.get.httpResponse = true →
        (resourceCosmosDbSQLStoredProcedureRead env).outcome = .ok ∧
        Event.setId "" ∈ (resourceCosmosDbSQLStoredProcedureRead env).events) ∧
      (wasNotFound env.get.httpResponse = false →
        (resourceCosmosDbSQLStoredProcedureRead env).outcome =
          .err (.wrapped "retrieving SQL Stored Procedure" id.storedProcedureName))) ∧
    (∀ (env : RaReadEnv) (id : RoleAssignmentId), env.parsedId = some id →
      env.get.errored = true →
      (wasNotFound env.get.httpResponse = true →
        (resourceCosmosDbSQLRoleAssignmentRead env).outcome = .ok ∧
        Event.setId "" ∈ (resourceCosmosDbSQLRoleAssignmentRead env).events) ∧
      (wasNotFound env.get.httpResponse = false →
        (resourceCosmosDbSQLRoleAssignmentRead env).outcome =
          .err (.wrapped "retrieving" id.idString))) ∧
    (∀ (env : RdReadEnv) (id : RoleDefinitionId), env.parsedId = some id →
      env.get.errored = true →
      (wasNotFound env.get.httpResponse = true →
        (resourceCosmosDbSQLRoleDefinitionRead env).outcome = .ok ∧
        Event.setId "" ∈ (resourceCosmosDbSQLRoleDefinitionRead env).events) ∧
      (wasNotFound env.get.httpResponse = false →
        (resourceCosmosDbSQLRoleDefinitionRead env).outcome =
          .err (.wrapped "retrieving" id.idString))) ∧
    (∀ (env : DbReadEnv) (id : SqlDatabaseId), env.parsedId = some id →
      env.get.errored = true →
      (wasNotFound env.get.httpResponse = true →
        (resourceCosmosDbSQLDatabaseRead env).outcome = .ok ∧
        Event.setId "" ∈ (resourceCosmosDbSQLDatabaseRead env).events) ∧
      (wasNotFound env.get.httpResponse = false →
        (resourceCosmosDbSQLDatabaseRead env).outcome =
          .err (.wrapped "reading Cosmos SQL Database" id.sqlDatabaseName))) := by
  refine ⟨?_, ?_, ?_, ?_, ?_, ?_⟩
  all_goals (
    intro env id hid hErr
    constructor
    · intro hNF
      constructor
      · simp [resourceCosmosDbSQLTriggerRead, resourceCosmosDbSQLFunctionRead,
          resourceCosmosDbSQLStoredProcedureRead, resourceCosmosDbSQLRoleAssignmentRead,
          resourceCosmosDbSQLRoleDefinitionRead, resourceCosmosDbSQLDatabaseRead,
          hid, hErr, hNF]
      · simp [resourceCosmosDbSQLTriggerRead, resourceCosmosDbSQLFunctionRead,
          resourceCosmosDbSQLStoredProcedureRead, resourceCosmosDbSQLRoleAssignmentRead,
          resourceCosmosDbSQLRoleDefinitionRead, resourceCosmosDbSQLDatabaseRead,
          hid, hErr, hNF]
    · intro hNF
      simp [resourceCosmosDbSQLTriggerRead, resourceCosmosDbSQLFunctionRead,
        resourceCosmosDbSQLStoredProcedureRead, resourceCosmosDbSQLRoleAssignmentRead,
        resourceCosmosDbSQLRoleDefinitionRead, resourceCosmosDbSQLDatabaseRead,
        hid, hErr, hNF])

/-- C9 witness: the trigger read at concrete inputs — a 404 GET clears the
identifier and succeeds; a 500 GET returns the wrapped error. -/
theorem C9_read_notFound_handling_witness :
    ((resourceCosmosDbSQLTriggerRead
        ⟨some ⟨"sub1", "rg1", "acct1", "db1", "cont1", "trig1"⟩,
          ⟨true, some 404, none⟩⟩).outcome = .ok ∧
      Event.setId "" ∈ (resourceCosmosDbSQLTriggerRead
        ⟨some ⟨"sub1", "rg1", "acct1", "db1", "cont1", "trig1"⟩,
          ⟨true, some 404, none⟩⟩).events) ∧
    (resourceCosmosDbSQLTriggerRead
        ⟨some ⟨"sub1", "rg1", "acct1", "db1", "cont1", "trig1"⟩,
          ⟨true, some 500, none⟩⟩).outcome =
      .err (.wrapped "retrieving CosmosDb SQLTrigger"
        (TriggerId.idString ⟨"sub1", "rg1", "acct1", "db1", "cont1", "trig1"⟩)) :=
  ⟨(C9_read_notFound_handling.1
      ⟨some ⟨"sub1", "rg1", "acct1", "db1", "cont1", "trig1"⟩, ⟨true, some 404, none⟩⟩
      ⟨"sub1", "rg1", "acct1", "db1", "cont1", "trig1"⟩ rfl rfl).1 rfl,
    (C9_read_notFound_handling.1
      ⟨some ⟨"sub1", "rg1", "acct1", "db1", "cont1", "trig1"⟩, ⟨true, some 500, none⟩⟩
      ⟨"sub1", "rg1", "acct1", "db1", "cont1", "trig1"⟩ rfl rfl).2 rfl⟩

/-- Helper for C5: the shared account phase issues no throughput call when
the fetched account is in serverless capacity mode. -/
theorem dbAccountPhase_serverless_noThroughput (id : SqlDatabaseId)
    (acct : GetResp DatabaseAccountGetResults) (tp : GetResp ThroughputModel)
    (acc : DatabaseAccountGetResults) (hm : acct.model = some acc)
    (hs : IsServerlessCapacityMode acc = true) :
    hasThroughputCall (dbAccountPhase id acct tp).2 = false := by
  simp only [dbAccountPhase, hm]
  split
  · simp [hasThroughputCall]
  · split
    · simp [hasThroughputCall]
    · split
      · simp [hasThroughputCall]
      · rw [hs]
        simp [hasThroughputCall]

/-- C5: neither the SQL-database resource read nor the data-source read
issues the throughput-fetch call when `IsServerlessCapacityMode` is true
for the fetched database account, on any execution path. -/
theorem C5_serverless_gates_throughput :
    (∀ (env : DbReadEnv) (acc : DatabaseAccountGetResults),
      env.accountGet.model = some acc → IsServerlessCapacityMode acc = true →
      hasThroughputCall (resourceCosmosDbSQLDatabaseRead env).events = false) ∧
    (∀ (env : DbDataSourceReadEnv) (acc : DatabaseAccountGetResults),
      env.accountGet.model = some acc → IsServerlessCapacityMode acc = true →
      hasThroughputCall (dataSourceCosmosDbSQLDatabaseRead env).events = false) := by
  constructor
  · intro env acc hm hs
    simp only [resourceCosmosDbSQLDatabaseRead]
    split
    · simp [hasThroughputCall]
    · split
      · split
        · simp [hasThroughputCall]
        · simp [hasThroughputCall]
      · split
        · simp [hasThroughputCall]
        · simp only [hasThroughputCall, List.any_append, Bool.or_eq_false_iff]
          refine ⟨⟨⟨by simp, by simp⟩, ?_⟩, ?_⟩
          · split <;> try split
            all_goals simp
          · have := dbAccountPhase_serverless_noThroughput
              (by assumption) env.accountGet env.throughputGet acc hm hs
            simpa [hasThroughputCall] using this
  · intro env acc hm hs
    simp only [dataSourceCosmosDbSQLDatabaseRead]
    split
    · split
      · simp [hasThroughputCall]
      · simp [hasThroughputCall]
    · split
      · simp [hasThroughputCall]
      · simp only [hasThroughputCall, List.any_append, Bool.or_eq_false_iff]
        refine ⟨⟨⟨by simp, by simp⟩, ?_⟩, ?_⟩
        · split <;> try split
          all_goals simp
        · have := dbAccountPhase_serverless_noThroughput
            ⟨env.subscriptionId, env.resourceGroupName, env.accountName, env.name⟩
            env.accountGet env.throughputGet acc hm hs
          simpa [hasThroughputCall] using this

/-- C5 witness: a concrete read environment whose fetched account carries
exactly the "EnableServerless" capability issues no throughput call. -/
theorem C5_serverless_gates_throughput_witness :
    hasThroughputCall (resourceCosmosDbSQLDatabaseRead
      ⟨some ⟨"sub1", "rg1", "acct1", "db1"⟩,
        ⟨false, some 200, some ⟨some "db1", some ⟨some ⟨"db1"⟩⟩⟩⟩,
        ⟨false, some 200, some ⟨some "account-id",
          some ⟨some [⟨some "EnableServerless"⟩]⟩⟩⟩,
        ⟨false, some 200, some ⟨some 400, none⟩⟩⟩).events = false :=
  C5_serverless_gates_throughput.1
    ⟨some ⟨"sub1", "rg1", "acct1", "db1"⟩,
      ⟨false, some 200, some ⟨some "db1", some ⟨some ⟨"db1"⟩⟩⟩⟩,
      ⟨false, some 200, some ⟨some "account-id",
        some ⟨some [⟨some "EnableServerless"⟩]⟩⟩⟩,
      ⟨false, some 200, some ⟨some 400, none⟩⟩⟩
    ⟨some "account-id", some ⟨some [⟨some "EnableServerless"⟩]⟩⟩ rfl (by decide)

/-- Helper for C7: `noLockEvents` distributes over append. -/
theorem noLockEvents_append (a b : List Event) :
    noLockEvents (a ++ b) = (noLockEvents a && noLockEvents b) := by
  simp [noLockEvents, List.all_append]

/-- Helper for C7: a lock-free trace segment leaves the discipline check
unchanged while the lock is held. -/
theorem lockDisciplineFrom_append_noLock (a b : List Event) (d : Nat)
    (ha : noLockEvents a = true) (hd : d ≠ 0) :
    lockDisciplineFrom (a ++ b) d = lockDisciplineFrom b d := by
  induction a with
  | nil => rfl
  | cons e rest ih =>
    simp only [noLockEvents, List.all_cons, Bool.and_eq_true] at ha
    have hrest : noLockEvents rest = true := ha.2
    have hdb : (d != 0) = true := by simpa using hd
    cases e with
    | lockAcquire n k => simp [Event.isLockEvent] at ha
    | lockRelease n k => simp [Event.isLockEvent] at ha
    | apiGet s =>
      simp only [List.cons_append, lockDisciplineFrom, List.append_eq]
      rw [ih hrest]
      simp [hdb]
    | apiMutate s =>
      simp only [List.cons_append, lockDisciplineFrom, List.append_eq]
      rw [ih hrest]
      simp [hdb]
    | apiDelete s =>
      simp only [List.cons_append, lockDisciplineFrom, List.append_eq]
      rw [ih hrest]
      simp [hdb]
    | apiAccountGet s =>
      simp only [List.cons_append, lockDisciplineFrom, List.append_eq]
      rw [ih hrest]
      simp [hdb]
    | apiThroughputGet s =>
      simp only [List.cons_append, lockDisciplineFrom, List.append_eq]
      rw [ih hrest]
      simp [hdb]
    | setId s =>
      simp only [List.cons_append, lockDisciplineFrom, List.append_eq]
      rw [ih hrest]
      simp [Event.isApiCall]
    | setField n v =>
      simp only [List.cons_append, lockDisciplineFrom, List.append_eq]
      rw [ih hrest]
      simp [Event.isApiCall]

/-- Helper for C7: a lock-free trace contains no acquisitions. -/
theorem noLockEvents_acquireCount (l : List Event) (h : noLockEvents l = true) :
    acquireCount l = 0 := by
  induction l with
  | nil => rfl
  | cons e rest ih =>
    simp only [noLockEvents, List.all_cons, Bool.and_eq_true] at h
    have := ih h.2
    cases e <;> simp_all [acquireCount, List.filter, Event.isLockEvent]

/-- Helper for C7: key conformance is vacuous on a lock-free trace. -/
theorem noLockEvents_lockKeysAre (l : List Event) (n k : String)
    (h : noLockEvents l = true) : lockKeysAre l n k = true := by
  induction l with
  | nil => rfl
  | cons e rest ih =>
    simp only [noLockEvents, List.all_cons, Bool.and_eq_true] at h
    have := ih h.2
    cases e <;> simp_all [lockKeysAre, Event.isLockEvent]

/-- Helper for C7: a handler trace of the shape
acquire, lock-free body, release satisfies the whole lock contract. -/
theorem wrapperLockProps (bodyEv : List Event) (n k : String)
    (h : noLockEvents bodyEv = true) :
    lockDiscipline ([Event.lockAcquire n k] ++ bodyEv ++ [Event.lockRelease n k]) =
      true ∧
    acquireCount ([Event.lockAcquire n k] ++ bodyEv ++ [Event.lockRelease n k]) = 1 ∧
    lockKeysAre ([Event.lockAcquire n k] ++ bodyEv ++ [Event.lockRelease n k]) n k =
      true := by
  refine ⟨?_, ?_, ?_⟩
  · have hsh : [Event.lockAcquire n k] ++ bodyEv ++ [Event.lockRelease n k] =
        Event.lockAcquire n k :: (bodyEv ++ [Event.lockRelease n k]) := by
      simp
    unfold lockDiscipline
    rw [hsh]
    show lockDisciplineFrom (bodyEv ++ [Event.lockRelease n k]) 1 = true
    rw [lockDisciplineFrom_append_noLock bodyEv [Event.lockRelease n k] 1 h (by simp)]
    rfl
  · simp only [acquireCount, List.filter_append, List.length_append]
    have h0 : acquireCount bodyEv = 0 := noLockEvents_acquireCount bodyEv h
    simp only [acquireCount] at h0
    simp [List.filter, h0]
  · simp only [lockKeysAre, List.all_append, Bool.and_eq_true]
    have hb := noLockEvents_lockKeysAre bodyEv n k h
    simp only [lockKeysAre] at hb
    refine ⟨⟨by simp, hb⟩, by simp⟩

/-- Helper for C7: the role-assignment read produces no lock events. -/
theorem raRead_noLockEvents (env : RaReadEnv) :
    noLockEvents (resourceCosmosDbSQLRoleAssignmentRead env).events = true := by
  unfold resourceCosmosDbSQLRoleAssignmentRead
  repeat' split
  all_goals simp [noLockEvents, Event.isLockEvent]

/-- Helper for C7: the role-definition read produces no lock events. -/
theorem rdRead_noLockEvents (env : RdReadEnv) :
    noLockEvents (resourceCosmosDbSQLRoleDefinitionRead env).events = true := by
  unfold resourceCosmosDbSQLRoleDefinitionRead
  repeat' split
  all_goals simp [noLockEvents, Event.isLockEvent]

/-- Helper for C7: the six locked bodies are lock-free. -/
theorem lockedBodies_noLockEvents :
    (∀ (env : RaCreateEnv) (id : RoleAssignmentId),
      noLockEvents (raCreateLocked env id).2 = true) ∧
    (∀ (env : RaUpdateEnv) (id : RoleAssignmentId),
      noLockEvents (raUpdateLocked env id).2 = true) ∧
    (∀ (env : RaDeleteEnv) (id : RoleAssignmentId),
      noLockEvents (raDeleteLocked env id).2 = true) ∧
    (∀ (env : RdCreateEnv) (id : RoleDefinitionId),
      noLockEvents (rdCreateLocked env id).2 = true) ∧
    (∀ (env : RdUpdateEnv) (id : RoleDefinitionId),
      noLockEvents (rdUpdateLocked env id).2 = true) ∧
    (∀ (env : RdDeleteEnv) (id : RoleDefinitionId),
      noLockEvents (rdDeleteLocked env id).2 = true) := by
  refine ⟨?_, ?_, ?_, ?_, ?_, ?_⟩
  all_goals (
    intro env id
    first
      | unfold raCreateLocked
      | unfold raUpdateLocked
      | unfold raDeleteLocked
      | unfold rdCreateLocked
      | unfold rdUpdateLocked
      | unfold rdDeleteLocked
    repeat' split
    all_goals (
      simp only [noLockEvents_append, Bool.and_eq_true]
      repeat' apply And.intro
      all_goals first
        | exact raRead_noLockEvents _
        | exact rdRead_noLockEvents _
        | simp [noLockEvents, Event.isLockEvent]))

/-- C7: every create, update and delete handler of the role-assignment and
role-definition resources acquires the account lock (keyed by the parent
database-account name and the account resource kind) before any client
call, releases it on every exit path, and acquires it at most once. -/
theorem C7_lock_contract :
    (∀ env : RaCreateEnv,
      lockDiscipline (resourceCosmosDbSQLRoleAssignmentCreate env).events = true ∧
      acquireCount (resourceCosmosDbSQLRoleAssignmentCreate env).events ≤ 1 ∧
      lockKeysAre (resourceCosmosDbSQLRoleAssignmentCreate env).events
        env.accountName CosmosDbAccountResourceName = true) ∧
    (∀ (env : RaUpdateEnv) (id : RoleAssignmentId), env.parsedId = some id →
      lockDiscipline (resourceCosmosDbSQLRoleAssignmentUpdate env).events = true ∧
      acquireCount (resourceCosmosDbSQLRoleAssignmentUpdate env).events ≤ 1 ∧
      lockKeysAre (resourceCosmosDbSQLRoleAssignmentUpdate env).events
        id.databaseAccountName CosmosDbAccountResourceName = true) ∧
    (∀ (env : RaDeleteEnv) (id : RoleAssignmentId), env.parsedId = some id →
      lockDiscipline (resourceCosmosDbSQLRoleAssignmentDelete env).events = true ∧
      acquireCount (resourceCosmosDbSQLRoleAssignmentDelete env).events ≤ 1 ∧
      lockKeysAre (resourceCosmosDbSQLRoleAssignmentDelete env).events
        id.databaseAccountName CosmosDbAccountResourceName = true) ∧
    (∀ env : RdCreateEnv,
      lockDiscipline (resourceCosmosDbSQLRoleDefinitionCreate env).events = true ∧
      acquireCount (resourceCosmosDbSQLRoleDefinitionCreate env).events ≤ 1 ∧
      lockKeysAre (resourceCosmosDbSQLRoleDefinitionCreate env).events
        env.accountName CosmosDbAccountResourceName = true) ∧
    (∀ (env : RdUpdateEnv) (id : RoleDefinitionId), env.parsedId = some id →
      lockDiscipline (resourceCosmosDbSQLRoleDefinitionUpdate env).events = true ∧
      acquireCount (resourceCosmosDbSQLRoleDefinitionUpdate env).events ≤ 1 ∧
      lockKeysAre (resourceCosmosDbSQLRoleDefinitionUpdate env).events
        id.databaseAccountName CosmosDbAccountResourceName = true) ∧
    (∀ (env : RdDeleteEnv) (id : RoleDefinitionId), env.parsedId = some id →
      lockDiscipline (resourceCosmosDbSQLRoleDefinitionDelete env).events = true ∧
      acquireCount (resourceCosmosDbSQLRoleDefinitionDelete env).events ≤ 1 ∧
      lockKeysAre (resourceCosmosDbSQLRoleDefinitionDelete env).events
        id.databaseAccountName CosmosDbAccountResourceName = true) := by
  refine ⟨?_, ?_, ?_, ?_, ?_, ?_⟩
  · intro env
    simp only [resourceCosmosDbSQLRoleAssignmentCreate]
    split
    · exact ⟨rfl, by simp [acquireCount, List.filter], rfl⟩
    · rename_i name heqn
      have hb := lockedBodies_noLockEvents.1 env
        ⟨env.subscriptionId, env.resourceGroupName, env.accountName, name⟩
      have hw := wrapperLockProps _ env.accountName CosmosDbAccountResourceName hb
      exact ⟨hw.1, le_of_eq hw.2.1, hw.2.2⟩
  · intro env id hid
    simp only [resourceCosmosDbSQLRoleAssignmentUpdate, hid]
    have hb := lockedBodies_noLockEvents.2.1 env id
    have hw := wrapperLockProps _ id.databaseAccountName CosmosDbAccountResourceName hb
    exact ⟨hw.1, le_of_eq hw.2.1, hw.2.2⟩
  · intro env id hid
    simp only [resourceCosmosDbSQLRoleAssignmentDelete, hid]
    have hb := lockedBodies_noLockEvents.2.2.1 env id
    have hw := wrapperLockProps _ id.databaseAccountName CosmosDbAccountResourceName hb
    exact ⟨hw.1, le_of_eq hw.2.1, hw.2.2⟩
  · intro env
    simp only [resourceCosmosDbSQLRoleDefinitionCreate]
    split
    · exact ⟨rfl, by simp [acquireCount, List.filter], rfl⟩
    · rename_i roleDefId heqn
      have hb := lockedBodies_noLockEvents.2.2.2.1 env
        ⟨env.subscriptionId, env.resourceGroupName, env.accountName, roleDefId⟩
      have hw := wrapperLockProps _ env.accountName CosmosDbAccountResourceName hb
      exact ⟨hw.1, le_of_eq hw.2.1, hw.2.2⟩
  · intro env id hid
    simp only [resourceCosmosDbSQLRoleDefinitionUpdate, hid]
    have hb := lockedBodies_noLockEvents.2.2.2.2.1 env id
    have hw := wrapperLockProps _ id.databaseAccountName CosmosDbAccountResourceName hb
    exact ⟨hw.1, le_of_eq hw.2.1, hw.2.2⟩
  · intro env id hid
    simp only [resourceCosmosDbSQLRoleDefinitionDelete, hid]
    have hb := lockedBodies_noLockEvents.2.2.2.2.2 env id
    have hw := wrapperLockProps _ id.databaseAccountName CosmosDbAccountResourceName hb
    exact ⟨hw.1, le_of_eq hw.2.1, hw.2.2⟩

/-- C7 witness: the lock contract at a concrete role-assignment delete. -/
theorem C7_lock_contract_witness :
    lockDiscipline (resourceCosmosDbSQLRoleAssignmentDelete
      ⟨some ⟨"sub1", "rg1", "acct1", "ra1"⟩, ⟨false, some 200, false⟩⟩).events = true ∧
    acquireCount (resourceCosmosDbSQLRoleAssignmentDelete
      ⟨some ⟨"sub1", "rg1", "acct1", "ra1"⟩, ⟨false, some 200, false⟩⟩).events ≤ 1 ∧
    lockKeysAre (resourceCosmosDbSQLRoleAssignmentDelete
      ⟨some ⟨"sub1", "rg1", "acct1", "ra1"⟩, ⟨false, some 200, false⟩⟩).events
      "acct1" CosmosDbAccountResourceName = true :=
  C7_lock_contract.2.2.1
    ⟨some ⟨"sub1", "rg1", "acct1", "ra1"⟩, ⟨false, some 200, false⟩⟩
    ⟨"sub1", "rg1", "acct1", "ra1"⟩ rfl

/-- C8 counterexample: a successful stored-procedure update (mutating call
and poll succeed, the refresh read succeeds) returns nil but its trace
contains no `d.SetId` call at all. -/
theorem C8_spUpdate_success_without_setId :
    (resourceCosmosDbSQLStoredProcedureUpdate
        ⟨some ⟨"sub1", "rg1", "acct1", "db1", "cont1", "sp1"⟩, "newbody",
          ⟨false, some 200, false⟩,
          ⟨some ⟨"sub1", "rg1", "acct1", "db1", "cont1", "sp1"⟩,
            ⟨false, some 200, some ⟨some "sp1", some ⟨some ⟨some "body"⟩⟩⟩⟩⟩⟩).outcome =
      .ok ∧
    hasSetId (resourceCosmosDbSQLStoredProcedureUpdate
        ⟨some ⟨"sub1", "rg1", "acct1", "db1", "cont1", "sp1"⟩, "newbody",
          ⟨false, some 200, false⟩,
          ⟨some ⟨"sub1", "rg1", "acct1", "db1", "cont1", "sp1"⟩,
            ⟨false, some 200, some ⟨some "sp1", some ⟨some ⟨some "body"⟩⟩⟩⟩⟩⟩).events =
      false := by
  decide

/-- C8 (amended): on success every create and update handler finishes by
invoking its read handler and returns the read's outcome, so local state is
refreshed from a fresh GET; the create handlers and the trigger,
user-defined-function, role-assignment and role-definition update handlers
call `d.SetId` immediately before that read, while the stored-procedure and
SQL-database update handlers invoke the read without re-setting the
already-stored identifier; and the fields the trigger read writes are taken
from its GET response. -/
theorem C8_success_setId_then_read :
    (∀ env : TriggerCreateUpdateEnv,
      (env.isNewResource = true →
        env.probe.errored = true ∧ wasNotFound env.probe.httpResponse = true) →
      env.createUpdate.errored = false → env.createUpdate.pollErrored = false →
      resourceCosmosDbSQLTriggerCreateUpdate env =
        ⟨(resourceCosmosDbSQLTriggerRead env.readEnv).outcome,
          (if env.isNewResource then
            [Event.apiGet (triggerIdOf env.subscriptionId env.payload).idString]
          else []) ++
          [Event.apiMutate (triggerIdOf env.subscriptionId env.payload).idString,
            Event.setId (triggerIdOf env.subscriptionId env.payload).idString] ++
          (resourceCosmosDbSQLTriggerRead env.readEnv).events⟩) ∧
    (∀ env : FunctionCreateUpdateEnv,
      (env.isNewResource = true →
        env.probe.errored = true ∧ wasNotFound env.probe.httpResponse = true) →
      env.createUpdate.errored = false → env.createUpdate.pollErrored = false →
      resourceCosmosDbSQLFunctionCreateUpdate env =
        ⟨(resourceCosmosDbSQLFunctionRead env.readEnv).outcome,
          (if env.isNewResource then
            [Event.apiGet (functionIdOf env.subscriptionId env.payload).idString]
          else []) ++
          [Event.apiMutate (functionIdOf env.subscriptionId env.payload).idString,
            Event.setId (functionIdOf env.subscriptionId env.payload).idString] ++
          (resourceCosmosDbSQLFunctionRead env.readEnv).events⟩) ∧
    (∀ env : SpCreateEnv, env.probe.errored = true →
      wasNotFound env.probe.httpResponse = true →
      env.create.errored = false → env.create.pollErrored = false →
      resourceCosmosDbSQLStoredProcedureCreate env =
        ⟨(resourceCosmosDbSQLStoredProcedureRead env.readEnv).outcome,
          [Event.apiGet (spIdOf env).idString, Event.apiMutate (spIdOf env).idString,
            Event.setId (spIdOf env).idString] ++
          (resourceCosmosDbSQLStoredProcedureRead env.readEnv).events⟩) ∧
    (∀ env : DbCreateEnv, env.probe.errored = true →
      wasNotFound env.probe.httpResponse = true →
      env.create.errored = false → env.create.pollErrored = false →
      resourceCosmosDbSQLDatabaseCreate env =
        ⟨(resourceCosmosDbSQLDatabaseRead env.readEnv).outcome,
          [Event.apiGet (dbIdOf env).idString, Event.apiMutate (dbIdOf env).idString,
            Event.setId (dbIdOf env).idString] ++
          (resourceCosmosDbSQLDatabaseRead env.readEnv).events⟩) ∧
    (∀ (env : RaCreateEnv) (name : String),
      (if env.nameFromConfig == "" then env.generatedUuid
        else some env.nameFromConfig) = some name →
      wasNotFound env.probe.httpResponse = true →
      env.createUpdate.errored = false → env.createUpdate.pollErrored = false →
      resourceCosmosDbSQLRoleAssignmentCreate env =
        ⟨(resourceCosmosDbSQLRoleAssignmentRead env.readEnv).outcome,
          [Event.lockAcquire env.accountName CosmosDbAccountResourceName,
            Event.apiGet (RoleAssignmentId.idString
              ⟨env.subscriptionId, env.resourceGroupName, env.accountName, name⟩),
            Event.apiMutate (RoleAssignmentId.idString
              ⟨env.subscriptionId, env.resourceGroupName, env.accountName, name⟩),
            Event.setId (RoleAssignmentId.idString
              ⟨env.subscriptionId, env.resourceGroupName, env.accountName, name⟩)] ++
          (resourceCosmosDbSQLRoleAssignmentRead env.readEnv).events ++
          [Event.lockRelease env.accountName CosmosDbAccountResourceName]⟩) ∧
    (∀ (env : RaUpdateEnv) (id : RoleAssignmentId), env.parsedId = some id →
      env.createUpdate.errored = false → env.createUpdate.pollErrored = false →
      resourceCosmosDbSQLRoleAssignmentUpdate env =
        ⟨(resourceCosmosDbSQLRoleAssignmentRead env.readEnv).outcome,
          [Event.lockAcquire id.databaseAccountName CosmosDbAccountResourceName,
            Event.apiMutate id.idString, Event.setId id.idString] ++
          (resourceCosmosDbSQLRoleAssignmentRead env.readEnv).events ++
          [Event.lockRelease id.databaseAccountName CosmosDbAccountResourceName]⟩) ∧
    (∀ (env : RdCreateEnv) (roleDefId : String),
      (if env.roleDefinitionIdFromConfig == "" then env.generatedUuid
        else some env.roleDefinitionIdFromConfig) = some roleDefId →
      wasNotFound env.probe.httpResponse = true →
      env.createUpdate.errored = false → env.createUpdate.pollErrored = false →
      resourceCosmosDbSQLRoleDefinitionCreate env =
        ⟨(resourceCosmosDbSQLRoleDefinitionRead env.readEnv).outcome,
          [Event.lockAcquire env.accountName CosmosDbAccountResourceName,
            Event.apiGet (RoleDefinitionId.idString
              ⟨env.subscriptionId, env.resourceGroupName, env.accountName, roleDefId⟩),
            Event.apiMutate (RoleDefinitionId.idString
              ⟨env.subscriptionId, env.resourceGroupName, env.accountName, roleDefId⟩),
            Event.setId (RoleDefinitionId.idString
              ⟨env.subscriptionId, env.resourceGroupName, env.accountName,
                roleDefId⟩)] ++
          (resourceCosmosDbSQLRoleDefinitionRead env.readEnv).events ++
          [Event.lockRelease env.accountName CosmosDbAccountResourceName]⟩) ∧
    (∀ (env : RdUpdateEnv) (id : RoleDefinitionId), env.parsedId = some id →
      env.createUpdate.errored = false → env.createUpdate.pollErrored = false →
      resourceCosmosDbSQLRoleDefinitionUpdate env =
        ⟨(resourceCosmosDbSQLRoleDefinitionRead env.readEnv).outcome,
          [Event.lockAcquire id.databaseAccountName CosmosDbAccountResourceName,
            Event.apiMutate id.idString, Event.setId id.idString] ++
          (resourceCosmosDbSQLRoleDefinitionRead env.readEnv).events ++
          [Event.lockRelease id.databaseAccountName CosmosDbAccountResourceName]⟩) ∧
    (∀ (env : SpUpdateEnv) (id : StoredProcedureId), env.parsedId = some id →
      env.update.errored = false → env.update.pollErrored = false →
      resourceCosmosDbSQLStoredProcedureUpdate env =
        ⟨(resourceCosmosDbSQLStoredProcedureRead env.readEnv).outcome,
          [Event.apiMutate id.idString] ++
          (resourceCosmosDbSQLStoredProcedureRead env.readEnv).events⟩) ∧
    (∀ (env : DbUpdateEnv) (id : SqlDatabaseId), env.parsedId = some id →
      env.autoscaleManualConflict = false →
      env.update.errored = false → env.update.pollErrored = false →
      (env.hasThroughputChange = true →
        (env.throughputUpdate.errored = true →
          wasNotFound env.throughputUpdate.httpResponse = false) ∧
        env.throughputUpdate.pollErrored = false) →
      resourceCosmosDbSQLDatabaseUpdate env =
        ⟨(resourceCosmosDbSQLDatabaseRead env.readEnv).outcome,
          [Event.apiMutate id.idString] ++
          (if env.hasThroughputChange then
            [Event.apiMutate (id.idString ++ "/throughputSettings/default")]
          else []) ++
          (resourceCosmosDbSQLDatabaseRead env.readEnv).events⟩) ∧
    (∀ (env : TriggerReadEnv) (id : TriggerId) (p : SqlTriggerProperties)
        (r : SqlTriggerResourceModel),
      env.parsedId = some id → env.get.errored = false →
      env.get.model = some ⟨some p⟩ → p.resource = some r →
      (resourceCosmosDbSQLTriggerRead env).events =
        [Event.apiGet id.idString,
          Event.setField "name" (.str id.triggerName),
          Event.setField "container_id" (.str id.containerIdString),
          Event.setField "body" (.optStr r.body),
          Event.setField "operation" (.optStr r.triggerOperation),
          Event.setField "type" (.optStr r.triggerType)]) := by
  refine ⟨?_, ?_, ?_, ?_, ?_, ?_, ?_, ?_, ?_, ?_, ?_⟩
  · intro env hNew hcu hpoll
    cases hn : env.isNewResource with
    | true =>
      have hp := hNew hn
      simp [resourceCosmosDbSQLTriggerCreateUpdate, hn, hp.1, hp.2, hcu, hpoll]
    | false =>
      simp [resourceCosmosDbSQLTriggerCreateUpdate, hn, hcu, hpoll]
  · intro env hNew hcu hpoll
    cases hn : env.isNewResource with
    | true =>
      have hp := hNew hn
      simp [resourceCosmosDbSQLFunctionCreateUpdate, hn, hp.1, hp.2, hcu, hpoll]
    | false =>
      simp [resourceCosmosDbSQLFunctionCreateUpdate, hn, hcu, hpoll]
  · intro env hpe hpnf hcu hpoll
    simp [resourceCosmosDbSQLStoredProcedureCreate, hpe, hpnf, hcu, hpoll]
  · intro env hpe hpnf hcu hpoll
    simp [resourceCosmosDbSQLDatabaseCreate, hpe, hpnf, hcu, hpoll]
  · intro env name hname hpnf hcu hpoll
    simp only [resourceCosmosDbSQLRoleAssignmentCreate, hname]
    simp [raCreateLocked, hpnf, hcu, hpoll]
  · intro env id hid hcu hpoll
    simp only [resourceCosmosDbSQLRoleAssignmentUpdate, hid]
    simp [raUpdateLocked, hcu, hpoll]
  · intro env roleDefId hname hpnf hcu hpoll
    simp only [resourceCosmosDbSQLRoleDefinitionCreate, hname]
    simp [rdCreateLocked, hpnf, hcu, hpoll]
  · intro env id hid hcu hpoll
    simp only [resourceCosmosDbSQLRoleDefinitionUpdate, hid]
    simp [rdUpdateLocked, hcu, hpoll]
  · intro env id hid hcu hpoll
    simp [resourceCosmosDbSQLStoredProcedureUpdate, hid, hcu, hpoll]
  · intro env id hid hconf hcu hpoll hthr
    cases hch : env.hasThroughputChange with
    | true =>
      have ht := hthr hch
      cases hte : env.throughputUpdate.errored with
      | true =>
        simp [resourceCosmosDbSQLDatabaseUpdate, hid, hconf, hcu, hpoll, hch,
          hte, ht.1 hte, ht.2]
      | false =>
        simp [resourceCosmosDbSQLDatabaseUpdate, hid, hconf, hcu, hpoll, hch,
          hte, ht.2]
    | false =>
      simp [resourceCosmosDbSQLDatabaseUpdate, hid, hconf, hcu, hpoll, hch]
  · intro env id p r hid hge hm hres
    simp [resourceCosmosDbSQLTriggerRead, hid, hge, hm, hres]

/-- C8 witness: a concrete successful role-assignment update sets the
identifier and then runs the refresh read, whose events follow. -/
theorem C8_success_setId_then_read_witness :
    resourceCosmosDbSQLRoleAssignmentUpdate
      ⟨some ⟨"sub1", "rg1", "acct1", "ra1"⟩, ⟨false, some 200, false⟩,
        ⟨some ⟨"sub1", "rg1", "acct1", "ra1"⟩,
          ⟨false, some 200, some ⟨some ⟨some "p1", some "rd1", some "s1"⟩⟩⟩⟩⟩ =
      ⟨(resourceCosmosDbSQLRoleAssignmentRead
          ⟨some ⟨"sub1", "rg1", "acct1", "ra1"⟩,
            ⟨false, some 200, some ⟨some ⟨some "p1", some "rd1", some "s1"⟩⟩⟩⟩).outcome,
        [Event.lockAcquire "acct1" CosmosDbAccountResourceName,
          Event.apiMutate (RoleAssignmentId.idString ⟨"sub1", "rg1", "acct1", "ra1"⟩),
          Event.setId (RoleAssignmentId.idString ⟨"sub1", "rg1", "acct1", "ra1"⟩)] ++
        (resourceCosmosDbSQLRoleAssignmentRead
          ⟨some ⟨"sub1", "rg1", "acct1", "ra1"⟩,
            ⟨false, some 200, some ⟨some ⟨some "p1", some "rd1", some "s1"⟩⟩⟩⟩).events ++
        [Event.lockRelease "acct1" CosmosDbAccountResourceName]⟩ :=
  C8_success_setId_then_read.2.2.2.2.2.1
    ⟨some ⟨"sub1", "rg1", "acct1", "ra1"⟩, ⟨false, some 200, false⟩,
      ⟨some ⟨"sub1", "rg1", "acct1", "ra1"⟩,
        ⟨false, some 200, some ⟨some ⟨some "p1", some "rd1", some "s1"⟩⟩⟩⟩⟩
    ⟨"sub1", "rg1", "acct1", "ra1"⟩ rfl rfl rfl

end AzureRM
